import Mathlib

/-!
Cluster-manager metrics lifecycle (go-controller/pkg/metrics/cluster_manager.go)

A shallow embedding of the registration lifecycle of the ovnkube cluster-manager
metrics: the one-time base registration, the register/unregister cycle of the four
host-subnet gauges, and the two recorders.

The process state is passed explicitly.  It consists of the `sync.Once` guard, the
default Prometheus registry and the current value of each package-level gauge
variable.  A Go panic is a result of its own that still carries the state reached
when the panic was raised, so that partial effects of an aborted call are visible.

The functions of the file are embedded statement by statement.  What they call in the
Go standard library and in the Prometheus client (`sync.Once.Do`, `BuildFQName`,
`NewDesc`, `Registry.Register`, `MustRegister`, `Registry.Unregister`, `Gauge.Set`,
`NewGaugeFunc`) is embedded after the library code.  A descriptor ID is the
fully-qualified name with the const-label values, a collector is filed under the set of
its descriptor IDs, and the registry also keeps, per fully-qualified name, the help
string and label names first registered under it; that record outlives `Unregister`.
The 64-bit hashes of the client are taken to be free of collisions: an ID is the hashed
data itself, and the XOR of the IDs of a collector is the set of those IDs.  A gauge
keeps its value in the gauge object itself, whether or not the object is registered.
-/

namespace Metrics

/-- Metric values.  The source type is Go `float64`; the file only stores these values
and hands them back, it never computes on them or compares them, so rationals stand
in for them. -/
abbrev float64 := ℚ

/-- What the file reads from other packages: the two name constants of package
`metrics` (`MetricOvnkubeNamespace`, `MetricOvnkubeSubsystemClusterManager`), the build
variables of package `config` and the result of `runtime.Version()`.  None of them is
declared in this file, so they are taken as parameters. -/
structure Env where
  MetricOvnkubeNamespace : String
  MetricOvnkubeSubsystemClusterManager : String
  Commit : String
  Branch : String
  BuildUser : String
  BuildDate : String
  runtimeVersion : String

/-- The fields of `prometheus.GaugeOpts` the file fills in.  `ConstLabels` keeps the
key/value pairs in the order the source lists them. -/
structure GaugeOpts where
  Namespace : String
  Subsystem : String
  Name : String
  Help : String
  ConstLabels : List (String × String)
deriving DecidableEq

/-- Function `prometheus.BuildFQName`: the non-empty parts joined by an underscore; an
empty name gives the empty string. -/
def BuildFQName (namespaceName subsystemName name : String) : String :=
  if name = "" then ""
  else if namespaceName ≠ "" ∧ subsystemName ≠ "" then
    namespaceName ++ "_" ++ subsystemName ++ "_" ++ name
  else if namespaceName ≠ "" then namespaceName ++ "_" ++ name
  else if subsystemName ≠ "" then subsystemName ++ "_" ++ name
  else name

/-- One rune of a metric name: a letter, an underscore, a colon, or a digit that is not
in first position. -/
def isValidLegacyRune (b : Char) (i : Nat) : Bool :=
  (decide ('a' ≤ b) && decide (b ≤ 'z')) || (decide ('A' ≤ b) && decide (b ≤ 'Z')) ||
    b == '_' || b == ':' || (decide ('0' ≤ b) && decide (b ≤ '9') && decide (0 < i))

/-- One rune of a label name: as for a metric name, without the colon. -/
def isValidLabelRune (b : Char) (i : Nat) : Bool :=
  (decide ('a' ≤ b) && decide (b ≤ 'z')) || (decide ('A' ≤ b) && decide (b ≤ 'Z')) ||
    b == '_' || (decide ('0' ≤ b) && decide (b ≤ '9') && decide (0 < i))

/-- Whether every rune of a string passes the test for its position. -/
def allRunes (p : Char → Nat → Bool) : List Char → Nat → Bool
  | [], _ => true
  | c :: cs, i => p c i && allRunes p cs (i + 1)

/-- Function `model.IsValidMetricName`: not empty and made of valid runes. -/
def IsValidMetricName (n : String) : Bool :=
  !n.data.isEmpty && allRunes isValidLegacyRune n.data 0

/-- Function `checkLabelName`: a valid label name that does not start with two
underscores. -/
def checkLabelName (l : String) : Bool :=
  !l.data.isEmpty && allRunes isValidLabelRune l.data 0 && !(l.data.take 2 == ['_', '_'])

/-- Order of `sort.Strings` on the runes of two strings. -/
def runesLE : List Char → List Char → Bool
  | [], _ => true
  | _ :: _, [] => false
  | a :: as, b :: bs =>
    if a.toNat < b.toNat then true
    else if b.toNat < a.toNat then false
    else runesLE as bs

/-- Function `sort.Strings`. -/
def sortStrings (l : List String) : List String :=
  l.insertionSort (fun a b => runesLE a.data b.data = true)

/-- A `prometheus.Desc`: fully-qualified name, help string, const-label pairs sorted by
label name, variable label names, and whether `NewDesc` recorded an error. -/
structure Desc where
  fqName : String
  help : String
  constLabelPairs : List (String × String)
  variableLabels : List String
  err : Bool
deriving DecidableEq

/-- Identity of a descriptor in the registry (the field `id` of `Desc`): the
fully-qualified name and the const-label values in the order of their sorted label
names. -/
structure Identity where
  fqName : String
  constLabelValues : List String
deriving DecidableEq

/-- The field `dimHash` of `Desc`: the help string and the sorted label names, a
variable label marked with a dollar sign. -/
structure DimHash where
  help : String
  labelNames : List String
deriving DecidableEq

/-- Descriptor ID. -/
def Desc.id (d : Desc) : Identity :=
  { fqName := d.fqName, constLabelValues := d.constLabelPairs.map Prod.snd }

/-- Descriptor dimension hash. -/
def Desc.dimHash (d : Desc) : DimHash :=
  { help := d.help
    labelNames :=
      sortStrings (d.constLabelPairs.map Prod.fst ++ d.variableLabels.map (fun l => "$" ++ l)) }

/-- Function `prometheus.NewDesc`.  The error is set for an invalid metric name, an
invalid label name or a label name used twice. -/
def NewDesc (fqName help : String) (variableLabels : List String)
    (constLabels : List (String × String)) : Desc :=
  { fqName := fqName
    help := help
    constLabelPairs :=
      constLabels.insertionSort (fun a b => runesLE a.1.data b.1.data = true)
    variableLabels := variableLabels
    err := !IsValidMetricName fqName ||
      constLabels.any (fun p => !checkLabelName p.1) ||
      variableLabels.any (fun l => !checkLabelName l) ||
      !decide ((constLabels.map Prod.fst ++ variableLabels.map (fun l => "$" ++ l)).Nodup) }

/-- Descriptor of a gauge or gauge function created with the given options. -/
def GaugeOpts.desc (o : GaugeOpts) : Desc :=
  NewDesc (BuildFQName o.Namespace o.Subsystem o.Name) o.Help [] o.ConstLabels

/-- Identity of the metric created with the given options. -/
def GaugeOpts.identity (o : GaugeOpts) : Identity :=
  o.desc.id

/-- The six package-level gauge variables, each created once by `prometheus.NewGauge`
when the package is initialised (source lines 15-55). -/
inductive GaugeVar
  | MetricClusterManagerLeader
  | MetricClusterManagerReadyDuration
  | metricV4HostSubnetCount
  | metricV6HostSubnetCount
  | metricV4AllocatedHostSubnetCount
  | metricV6AllocatedHostSubnetCount
deriving DecidableEq

/-- Options each gauge variable was created with. -/
def GaugeVar.opts (env : Env) : GaugeVar → GaugeOpts
  | .MetricClusterManagerLeader =>
    { Namespace := env.MetricOvnkubeNamespace
      Subsystem := env.MetricOvnkubeSubsystemClusterManager
      Name := "leader"
      Help := "Identifies whether the instance of ovnkube-cluster-manager is a leader(1) or not(0)."
      ConstLabels := [] }
  | .MetricClusterManagerReadyDuration =>
    { Namespace := env.MetricOvnkubeNamespace
      Subsystem := env.MetricOvnkubeSubsystemClusterManager
      Name := "ready_duration_seconds"
      Help := "The duration for the cluster manager to get to ready state"
      ConstLabels := [] }
  | .metricV4HostSubnetCount =>
    { Namespace := env.MetricOvnkubeNamespace
      Subsystem := env.MetricOvnkubeSubsystemClusterManager
      Name := "num_v4_host_subnets"
      Help := "The total number of v4 host subnets possible"
      ConstLabels := [] }
  | .metricV6HostSubnetCount =>
    { Namespace := env.MetricOvnkubeNamespace
      Subsystem := env.MetricOvnkubeSubsystemClusterManager
      Name := "num_v6_host_subnets"
      Help := "The total number of v6 host subnets possible"
      ConstLabels := [] }
  | .metricV4AllocatedHostSubnetCount =>
    { Namespace := env.MetricOvnkubeNamespace
      Subsystem := env.MetricOvnkubeSubsystemClusterManager
      Name := "allocated_v4_host_subnets"
      Help := "The total number of v4 host subnets currently allocated"
      ConstLabels := [] }
  | .metricV6AllocatedHostSubnetCount =>
    { Namespace := env.MetricOvnkubeNamespace
      Subsystem := env.MetricOvnkubeSubsystemClusterManager
      Name := "allocated_v6_host_subnets"
      Help := "The total number of v6 host subnets currently allocated"
      ConstLabels := [] }

/-- Identity of a gauge variable. -/
def GaugeVar.identity (env : Env) (g : GaugeVar) : Identity :=
  (g.opts env).identity

/-- A collector handed to the registry.  `gauge g` is one of the gauge variables of this
package; its value lives in the variable, not in the registry.  `gaugeFunc o f` is a
`prometheus.NewGaugeFunc` collector, whose value is computed by `f` on every read.
`other descs metrics` is any other collector another subsystem has put into the shared
registry: the descriptors it describes and the metrics it reports. -/
inductive Collector
  | gauge (g : GaugeVar)
  | gaugeFunc (o : GaugeOpts) (f : Unit → float64)
  | other (descs : List Desc) (metrics : List (Desc × float64))

/-- What `Describe` sends: the descriptors of a collector. -/
def Collector.descs (env : Env) : Collector → List Desc
  | .gauge g => [(g.opts env).desc]
  | .gaugeFunc o _ => [o.desc]
  | .other descs _ => descs

/-- The descriptor IDs of a collector.  The registry files the collector under their
XOR, here under the set they form. -/
def Collector.ids (env : Env) (c : Collector) : List Identity :=
  (c.descs env).map Desc.id

/-- Two lists of descriptor IDs give the same collector ID: they hold the same IDs. -/
def sameKey (a b : List Identity) : Bool :=
  a.all (fun x => decide (x ∈ b)) && b.all (fun x => decide (x ∈ a))

/-- Options of the `build_info` gauge function built inside `RegisterClusterManagerBase`
(source lines 64-78). -/
def buildInfoOpts (env : Env) : GaugeOpts :=
  { Namespace := env.MetricOvnkubeNamespace
    Subsystem := env.MetricOvnkubeSubsystemClusterManager
    Name := "build_info"
    Help := "A metric with a constant '1' value labeled by version, revision, branch, " ++
      "and go version from which ovnkube was built and when and who built it"
    ConstLabels :=
      [ ("version", "0.0"),
        ("revision", env.Commit),
        ("branch", env.Branch),
        ("build_user", env.BuildUser),
        ("build_date", env.BuildDate),
        ("goversion", env.runtimeVersion) ] }

/-- The `build_info` collector built inside `RegisterClusterManagerBase`
(source lines 63-80). -/
def buildInfo (env : Env) : Collector :=
  .gaugeFunc (buildInfoOpts env) (fun _ => 1)

/-- The default registry of the Prometheus client: the collectors it holds (the values
of `collectorsByID`, oldest first), the help and label names on record for every
fully-qualified name ever registered (`dimHashesByName`), and the metrics of the
collectors that describe nothing (`uncheckedCollectors`).  The set `descIDs` of the
client is the set of the IDs of the collectors held. -/
structure Registry where
  collectorsByID : List Collector
  dimHashesByName : List (String × DimHash)
  uncheckedCollectors : List (List (Desc × float64))

/-- Process state: the done flag of the `sync.Once` variable
`registerClusterManagerBaseMetrics`, the default Prometheus registry, and the value
currently stored in each gauge variable. -/
structure State where
  registerClusterManagerBaseMetrics : Bool
  registry : Registry
  value : GaugeVar → float64

/-- State of a fresh process: the guard has not run, the registry holds no collector and
no record yet, and every gauge created by `NewGauge` stores 0. -/
def State.init : State :=
  { registerClusterManagerBaseMetrics := false
    registry := { collectorsByID := [], dimHashesByName := [], uncheckedCollectors := [] }
    value := fun _ => 0 }

/-- The errors `Registry.Register` returns: an invalid descriptor; a name on record with
another help string or other label names; a collector already filed under the same
collector ID (`prometheus.AlreadyRegisteredError`); a descriptor ID that is held by a
collector filed under another collector ID. -/
inductive Error
  | invalidDesc (d : Desc)
  | inconsistentDims (d : Desc)
  | alreadyRegistered (ExistingCollector NewCollector : Collector)
  | duplicateDesc (d : Desc)

/-- Result of a call: it returned, or it panicked with the registry error.  Both carry
the process state at that point. -/
inductive Result
  | ok (s : State)
  | panic (e : Error) (s : State)

/-- Sequencing of statements: the next statement runs only if the previous one
returned; a panic unwinds past it. -/
def Result.andThen (r : Result) (k : State → Result) : Result :=
  match r with
  | .ok s => k s
  | .panic e s => .panic e s

/-- State carried by a result. -/
def Result.state : Result → State
  | .ok s => s
  | .panic _ s => s

/-- Whether the call returned normally. -/
def Result.returned : Result → Bool
  | .ok _ => true
  | .panic _ _ => false

/-- A descriptor ID is registered when a collector the registry holds describes it. -/
def Registered (env : Env) (r : Registry) (id : Identity) : Prop :=
  ∃ c ∈ r.collectorsByID, id ∈ c.ids env

instance (env : Env) (r : Registry) (id : Identity) : Decidable (Registered env r id) := by
  unfold Registered; infer_instance

/-- A fully-qualified name is registered when a collector the registry holds describes
a metric of that name, whatever its const labels. -/
def NameRegistered (env : Env) (r : Registry) (fqName : String) : Prop :=
  ∃ c ∈ r.collectorsByID, ∃ d ∈ c.descs env, d.fqName = fqName

/-- The collector that holds a descriptor ID, if any. -/
def lookup (env : Env) (r : Registry) (id : Identity) : Option Collector :=
  r.collectorsByID.find? (fun c => decide (id ∈ c.ids env))

/-- The help and label names on record for a fully-qualified name, if any. -/
def dimRecord (dims : List (String × DimHash)) (fqName : String) : Option DimHash :=
  (dims.find? (fun p => decide (p.1 = fqName))).map Prod.snd

/-- What the checking loop of `Register` has gathered so far: the IDs of the new
collector, the records to add for names not on record yet, and the error kept for a
descriptor ID that is taken. -/
structure Checked where
  newDescIDs : List Identity
  newDimHashesByName : List (String × DimHash)
  duplicateDescErr : Option Error

/-- The checking loop of `Registry.Register` over the descriptors of the new collector:
an invalid descriptor or a name whose record differs ends the call at once; a descriptor
ID that is taken is noted and reported after the loop. -/
def checkDescs (env : Env) (r : Registry) : List Desc → Checked → Except Error Checked
  | [], acc => .ok acc
  | d :: ds, acc =>
    if d.err then .error (.invalidDesc d)
    else
      let dup := if Registered env r d.id then some (Error.duplicateDesc d)
        else acc.duplicateDescErr
      let ids := if d.id ∈ acc.newDescIDs then acc.newDescIDs else acc.newDescIDs ++ [d.id]
      match dimRecord r.dimHashesByName d.fqName with
      | some h =>
        if h ≠ d.dimHash then .error (.inconsistentDims d)
        else checkDescs env r ds
          { newDescIDs := ids, newDimHashesByName := acc.newDimHashesByName,
            duplicateDescErr := dup }
      | none =>
        match dimRecord acc.newDimHashesByName d.fqName with
        | some h =>
          if h ≠ d.dimHash then .error (.inconsistentDims d)
          else checkDescs env r ds
            { newDescIDs := ids, newDimHashesByName := acc.newDimHashesByName,
              duplicateDescErr := dup }
        | none => checkDescs env r ds
            { newDescIDs := ids
              newDimHashesByName := acc.newDimHashesByName ++ [(d.fqName, d.dimHash)]
              duplicateDescErr := dup }

/-- Metrics of a collector that describes nothing. -/
def Collector.uncheckedMetrics : Collector → List (Desc × float64)
  | .other _ metrics => metrics
  | _ => []

/-- Method `Registry.Register` of the Prometheus client.  After the checking loop a
collector without descriptors is kept unchecked; a collector ID that is taken gives
`AlreadyRegisteredError`; a descriptor ID that is taken gives the error noted in the
loop; otherwise the collector is filed and the new records are added.  On an error the
registry is left as it was. -/
def Register (env : Env) (r : Registry) (c : Collector) : Except Error Registry :=
  match checkDescs env r (c.descs env)
      { newDescIDs := [], newDimHashesByName := [], duplicateDescErr := none } with
  | .error e => .error e
  | .ok acc =>
    if acc.newDescIDs.isEmpty then
      .ok { r with uncheckedCollectors := r.uncheckedCollectors ++ [c.uncheckedMetrics] }
    else
      match r.collectorsByID.find? (fun e => sameKey (e.ids env) acc.newDescIDs) with
      | some e => .error (.alreadyRegistered e c)
      | none =>
        match acc.duplicateDescErr with
        | some e => .error e
        | none =>
          .ok { collectorsByID := r.collectorsByID ++ [c]
                dimHashesByName := r.dimHashesByName ++ acc.newDimHashesByName
                uncheckedCollectors := r.uncheckedCollectors }

/-- Function `prometheus.MustRegister` on the default registry: `Register`, and a panic
if it returns an error. -/
def MustRegister (env : Env) (c : Collector) (s : State) : Result :=
  match Register env s.registry c with
  | .ok r => .ok { s with registry := r }
  | .error e => .panic e s

/-- Function `prometheus.Unregister` on the default registry: if a collector is filed
under the collector ID of `c`, it is dropped and the call reports true; otherwise
nothing changes and it reports false.  The records in `dimHashesByName` are left
untouched. -/
def Unregister (env : Env) (c : Collector) (s : State) : Bool × State :=
  if s.registry.collectorsByID.any (fun e => sameKey (e.ids env) (c.ids env)) then
    (true,
      { s with registry :=
        { s.registry with collectorsByID :=
            s.registry.collectorsByID.filter (fun e => !sameKey (e.ids env) (c.ids env)) } })
  else (false, s)

/-- Method `Gauge.Set`: stores the value in the gauge variable. -/
def GaugeVar.Set (g : GaugeVar) (v : float64) (s : State) : State :=
  { s with value := Function.update s.value g v }

/-- Method `sync.Once.Do` on `registerClusterManagerBaseMetrics`: the body runs only if
the guard has not run yet, and the guard is marked done when the body ends, also when it
ends in a panic (`doSlow` defers the store of the done flag before calling the body). -/
def Once.Do (f : State → Result) (s : State) : Result :=
  if s.registerClusterManagerBaseMetrics then .ok s
  else
    match f s with
    | .ok t => .ok { t with registerClusterManagerBaseMetrics := true }
    | .panic e t => .panic e { t with registerClusterManagerBaseMetrics := true }

/-- Function `RegisterClusterManagerBase` (source lines 59-82). -/
def RegisterClusterManagerBase (env : Env) (s : State) : Result :=
  Once.Do (fun s =>
    (MustRegister env (.gauge .MetricClusterManagerLeader) s).andThen fun s =>
    (MustRegister env (.gauge .MetricClusterManagerReadyDuration) s).andThen fun s =>
    MustRegister env (buildInfo env) s) s

/-- Function `RegisterClusterManagerFunctional` (source lines 86-91). -/
def RegisterClusterManagerFunctional (env : Env) (s : State) : Result :=
  (MustRegister env (.gauge .metricV4HostSubnetCount) s).andThen fun s =>
  (MustRegister env (.gauge .metricV6HostSubnetCount) s).andThen fun s =>
  (MustRegister env (.gauge .metricV4AllocatedHostSubnetCount) s).andThen fun s =>
  MustRegister env (.gauge .metricV6AllocatedHostSubnetCount) s

/-- Function `UnregisterClusterManagerFunctional` (source lines 93-98).  The boolean
each `Unregister` returns is dropped, as in the source. -/
def UnregisterClusterManagerFunctional (env : Env) (s : State) : Result :=
  let s := (Unregister env (.gauge .metricV4HostSubnetCount) s).2
  let s := (Unregister env (.gauge .metricV6HostSubnetCount) s).2
  let s := (Unregister env (.gauge .metricV4AllocatedHostSubnetCount) s).2
  let s := (Unregister env (.gauge .metricV6AllocatedHostSubnetCount) s).2
  .ok s

/-- Function `RecordSubnetUsage` (source lines 101-104). -/
def RecordSubnetUsage (v4SubnetsAllocated v6SubnetsAllocated : float64) (s : State) : Result :=
  let s := GaugeVar.Set .metricV4AllocatedHostSubnetCount v4SubnetsAllocated s
  let s := GaugeVar.Set .metricV6AllocatedHostSubnetCount v6SubnetsAllocated s
  .ok s

/-- Function `RecordSubnetCount` (source lines 108-111). -/
def RecordSubnetCount (v4SubnetCount v6SubnetCount : float64) (s : State) : Result :=
  let s := GaugeVar.Set .metricV4HostSubnetCount v4SubnetCount s
  let s := GaugeVar.Set .metricV6HostSubnetCount v6SubnetCount s
  .ok s

/-! ### Observation -/

/-- What `Collect` sends in state `s`: the metrics a collector reports. -/
def Collector.collect (env : Env) (c : Collector) (s : State) : List (Desc × float64) :=
  match c with
  | .gauge g => [((g.opts env).desc, s.value g)]
  | .gaugeFunc o f => [(o.desc, f ())]
  | .other _ metrics => metrics

/-- Read of the metric with the given descriptor ID, through the registry: `none` when
no collector holds the ID. -/
def readMetric (env : Env) (s : State) (id : Identity) : Option float64 :=
  match lookup env s.registry id with
  | none => none
  | some c => ((c.collect env s).find? (fun m => decide (m.1.id = id))).map Prod.snd

/-- Everything a scrape of the registry shows: descriptor and current value of every
metric of every collector it holds. -/
def Gather (env : Env) (s : State) : List (Desc × float64) :=
  s.registry.collectorsByID.flatMap (fun c => c.collect env s) ++
    s.registry.uncheckedCollectors.flatMap id

/-- The gauge variables of the functional group, in registration order. -/
def functionalGauges : List GaugeVar :=
  [ .metricV4HostSubnetCount, .metricV6HostSubnetCount,
    .metricV4AllocatedHostSubnetCount, .metricV6AllocatedHostSubnetCount ]

/-- The collectors of the base group, in registration order. -/
def baseCollectors (env : Env) : List Collector :=
  [ .gauge .MetricClusterManagerLeader, .gauge .MetricClusterManagerReadyDuration, buildInfo env ]

/-- The functional group is unregistered: none of its four descriptor IDs is in the
registry. -/
def FunctionalUnregistered (env : Env) (s : State) : Prop :=
  ∀ g ∈ functionalGauges, ¬ Registered env s.registry (g.identity env)

/-- The functional group is registered: under each of its four descriptor IDs the
registry holds the gauge variable of this package. -/
def FunctionalRegistered (env : Env) (s : State) : Prop :=
  ∀ g ∈ functionalGauges, lookup env s.registry (g.identity env) = some (.gauge g)

/-- The base group is unregistered: none of its three descriptor IDs is in the
registry. -/
def BaseUnregistered (env : Env) (s : State) : Prop :=
  ∀ c ∈ baseCollectors env, ∀ id ∈ c.ids env, ¬ Registered env s.registry id

/-- The registry can take a descriptor: the descriptor carries no error, its ID is not
held, and its name is not on record or is on record with the same help string and label
names. -/
def CanRegister (env : Env) (r : Registry) (d : Desc) : Prop :=
  d.err = false ∧ ¬ Registered env r d.id ∧
    (dimRecord r.dimHashesByName d.fqName = none ∨
      dimRecord r.dimHashesByName d.fqName = some d.dimHash)

/-- The registry refuses a descriptor for what it holds: its ID is held, or its name is
on record with another help string or other label names. -/
def Collides (env : Env) (r : Registry) (d : Desc) : Prop :=
  Registered env r d.id ∨
    ∃ h, dimRecord r.dimHashesByName d.fqName = some h ∧ h ≠ d.dimHash

/-- The registry can take the four functional gauges. -/
def FunctionalRegistrable (env : Env) (s : State) : Prop :=
  ∀ g ∈ functionalGauges, CanRegister env s.registry (g.opts env).desc

/-- The registry can take the three base collectors. -/
def BaseRegistrable (env : Env) (s : State) : Prop :=
  ∀ c ∈ baseCollectors env, ∀ d ∈ c.descs env, CanRegister env s.registry d

/-- A collector that is filed under the collector ID of none of the four functional
gauges. -/
def notFunctional (env : Env) (e : Collector) : Bool :=
  functionalGauges.all (fun g => !sameKey (e.ids env) [g.identity env])

/-- The record kept for the name of a descriptor once it has been registered: the one
already there, or its own. -/
def recordDim (dims : List (String × DimHash)) (d : Desc) : List (String × DimHash) :=
  match dimRecord dims d.fqName with
  | some _ => dims
  | none => dims ++ [(d.fqName, d.dimHash)]

/-- The registry after it has taken the collectors `cs` one after the other: they are
filed behind the collectors held before, and every name of theirs that was not on record
is now on record. -/
def Registry.addAll (env : Env) (r : Registry) (cs : List Collector) : Registry :=
  { collectorsByID := r.collectorsByID ++ cs
    dimHashesByName := (cs.flatMap (fun c => c.descs env)).foldl recordDim r.dimHashesByName
    uncheckedCollectors := r.uncheckedCollectors }

/-- Two collectors describe no metric of the same fully-qualified name. -/
def DistinctNames (env : Env) (a b : Collector) : Prop :=
  ∀ da ∈ a.descs env, ∀ db ∈ b.descs env, da.fqName ≠ db.fqName

/-- Repeated calls of one operation, each on the state the previous one left. -/
def callN (op : State → Result) : Nat → State → Result
  | 0, s => .ok s
  | n + 1, s => (op s).andThen (callN op n)

/-- One leadership term: register the functional group, then unregister it. -/
def leadershipTerm (env : Env) (s : State) : Result :=
  (RegisterClusterManagerFunctional env s).andThen (UnregisterClusterManagerFunctional env)

/-- A run of `MustRegister` statements, one per collector, in order. -/
def mustRegisterAll (env : Env) : List Collector → State → Result
  | [], s => .ok s
  | c :: cs, s => (MustRegister env c s).andThen (mustRegisterAll env cs)

/-- The leadership scenario: the functional group is registered, capacities and usage
are recorded, leadership is lost and the group unregistered, leadership is won again and
the group registered once more. -/
def reacquireScenario (env : Env) (v4SubnetCount v6SubnetCount v4SubnetsAllocated
    v6SubnetsAllocated : float64) (s : State) : Result :=
  (RegisterClusterManagerFunctional env s).andThen fun s =>
  (RecordSubnetCount v4SubnetCount v6SubnetCount s).andThen fun s =>
  (RecordSubnetUsage v4SubnetsAllocated v6SubnetsAllocated s).andThen fun s =>
  (UnregisterClusterManagerFunctional env s).andThen fun s =>
  RegisterClusterManagerFunctional env s

/-- Build Identity in the words of the specification: version, revision, branch, builder
identity, build date and toolchain version of the running binary. -/
structure BuildIdentity where
  version : String
  revision : String
  branch : String
  buildUser : String
  buildDate : String
  toolchainVersion : String

/-- Label set the specification gives `build_info`: every label holds the corresponding
field of the Build Identity. -/
def BuildIdentity.labels (b : BuildIdentity) : List (String × String) :=
  [ ("version", b.version),
    ("revision", b.revision),
    ("branch", b.branch),
    ("build_user", b.buildUser),
    ("build_date", b.buildDate),
    ("goversion", b.toolchainVersion) ]

/-- Environment of a process built with the given Build Identity: the variables of
package `config` and `runtime.Version()` carry its fields.  The source reads no version
variable, so the version field has no place in the environment. -/
def BuildIdentity.env (b : BuildIdentity) (namespaceName subsystemName : String) : Env :=
  { MetricOvnkubeNamespace := namespaceName
    MetricOvnkubeSubsystemClusterManager := subsystemName
    Commit := b.revision
    Branch := b.branch
    BuildUser := b.buildUser
    BuildDate := b.buildDate
    runtimeVersion := b.toolchainVersion }

/-- A concrete Build Identity used for evaluation. -/
def sampleBuild : BuildIdentity :=
  { version := "1.0.0"
    revision := "abc123"
    branch := "master"
    buildUser := "builder"
    buildDate := "2023-01-01"
    toolchainVersion := "go1.20" }

/-- A concrete environment used for evaluation. -/
def sampleEnv : Env :=
  { MetricOvnkubeNamespace := "ovnkube"
    MetricOvnkubeSubsystemClusterManager := "clustermanager"
    Commit := "abc123"
    Branch := "master"
    BuildUser := "builder"
    BuildDate := "2023-01-01"
    runtimeVersion := "go1.20" }

/-- A gauge function another subsystem creates under the namespace and subsystem of
this package, with a name, help string and const labels of its own. -/
def foreignGauge (env : Env) (name help : String) (labels : List (String × String)) :
    Collector :=
  .gaugeFunc
    { Namespace := env.MetricOvnkubeNamespace
      Subsystem := env.MetricOvnkubeSubsystemClusterManager
      Name := name
      Help := help
      ConstLabels := labels }
    (fun _ => 7)

/-- The state of a fresh process after another subsystem has registered a collector. -/
def withForeign (env : Env) (c : Collector) : State :=
  (MustRegister env c State.init).state

/-- The state of a fresh process after another subsystem has registered a collector and
unregistered it again. -/
def afterForeignTerm (env : Env) (c : Collector) : State :=
  (Unregister env c (withForeign env c)).2

/-- A `build_info` gauge function of another subsystem: the name, help string and label
names of the one of this package, with other label values. -/
def twinBuildInfo (env : Env) : Collector :=
  .gaugeFunc
    { buildInfoOpts env with
      ConstLabels :=
        [ ("version", "9.9"),
          ("revision", "other"),
          ("branch", "other"),
          ("build_user", "other"),
          ("build_date", "other"),
          ("goversion", "other") ] }
    (fun _ => 1)

/-- A collector of another subsystem that describes two metrics, one of them with the
descriptor of `num_v4_host_subnets`. -/
def pairCollector (env : Env) : Collector :=
  .other
    [ (GaugeVar.opts env .metricV4HostSubnetCount).desc,
      NewDesc "other_metric" "another metric of the same collector" [] [] ]
    []

/-- The state `s` once the registry has taken the four functional gauges. -/
def State.leading (env : Env) (s : State) : State :=
  { s with registry := s.registry.addAll env (functionalGauges.map Collector.gauge) }

/-- The state `s` once the registry has taken the four functional gauges and dropped them
again: it holds the collectors of `s`, and the names of the four gauges are on record. -/
def State.betweenTerms (env : Env) (s : State) : State :=
  { s with registry :=
      { s.registry.addAll env (functionalGauges.map Collector.gauge) with
        collectorsByID := s.registry.collectorsByID } }

/-- A state in which the functional group is registered and nothing else is. -/
def leaderState (env : Env) : State :=
  State.init.leading env

instance (env : Env) (r : Registry) (n : String) : Decidable (NameRegistered env r n) := by
  unfold NameRegistered; infer_instance

instance (env : Env) (s : State) : Decidable (FunctionalUnregistered env s) := by
  unfold FunctionalUnregistered; infer_instance

instance (env : Env) (s : State) : Decidable (BaseUnregistered env s) := by
  unfold BaseUnregistered; infer_instance

instance (env : Env) (r : Registry) (d : Desc) : Decidable (CanRegister env r d) := by
  unfold CanRegister; infer_instance

instance (env : Env) (s : State) : Decidable (FunctionalRegistrable env s) := by
  unfold FunctionalRegistrable; infer_instance

instance (env : Env) (s : State) : Decidable (BaseRegistrable env s) := by
  unfold BaseRegistrable; infer_instance

/-! ### Names and identities -/

theorem String.append_left_cancel (p a b : String) (h : p ++ a = p ++ b) : a = b := by
  have h1 := congrArg String.data h
  simp only [String.data_append] at h1
  exact String.ext (List.append_cancel_left h1)

theorem BuildFQName_inj (ns sub a b : String) (ha : a ≠ "") (hb : b ≠ "")
    (h : BuildFQName ns sub a = BuildFQName ns sub b) : a = b := by
  unfold BuildFQName at h
  simp only [ha, hb, if_false] at h
  split_ifs at h
  · exact String.append_left_cancel _ a b h
  · exact String.append_left_cancel _ a b h
  · exact String.append_left_cancel _ a b h
  · exact h

theorem gauge_name_ne_empty (env : Env) (g : GaugeVar) : (g.opts env).Name ≠ "" := by
  cases g <;> simp [GaugeVar.opts]

theorem gauge_name_inj (env : Env) (g h : GaugeVar)
    (e : (g.opts env).Name = (h.opts env).Name) : g = h := by
  cases g <;> cases h <;> simp [GaugeVar.opts] at e ⊢

theorem gauge_name_ne_buildInfo (env : Env) (g : GaugeVar) :
    (buildInfoOpts env).Name ≠ (g.opts env).Name := by
  cases g <;> simp [GaugeVar.opts, buildInfoOpts]

theorem gauge_fqName_eq (env : Env) (g : GaugeVar) :
    (g.opts env).desc.fqName = BuildFQName env.MetricOvnkubeNamespace
      env.MetricOvnkubeSubsystemClusterManager (g.opts env).Name := by
  cases g <;> rfl

theorem gauge_fqName_inj (env : Env) (g h : GaugeVar) :
    (g.opts env).desc.fqName = (h.opts env).desc.fqName ↔ g = h := by
  constructor
  · intro e
    rw [gauge_fqName_eq, gauge_fqName_eq] at e
    exact gauge_name_inj env g h
      (BuildFQName_inj _ _ _ _ (gauge_name_ne_empty env g) (gauge_name_ne_empty env h) e)
  · rintro rfl; rfl

theorem buildInfo_fqName_ne (env : Env) (g : GaugeVar) :
    (buildInfoOpts env).desc.fqName ≠ (g.opts env).desc.fqName := by
  intro e
  rw [gauge_fqName_eq] at e
  exact gauge_name_ne_buildInfo env g
    (BuildFQName_inj _ _ _ _ (by simp [buildInfoOpts]) (gauge_name_ne_empty env g) e)

theorem id_ne_of_fqName_ne (d e : Desc) (h : d.fqName ≠ e.fqName) : d.id ≠ e.id := by
  intro hid
  exact h (congrArg Identity.fqName hid)

/-! ### Facts about the registry -/

theorem lookup_eq_none_iff (env : Env) (r : Registry) (id : Identity) :
    lookup env r id = none ↔ ¬ Registered env r id := by
  simp [lookup, Registered, List.find?_eq_none]

theorem lookup_some_mem (env : Env) (r : Registry) (id : Identity) (c : Collector)
    (h : lookup env r id = some c) : c ∈ r.collectorsByID ∧ id ∈ c.ids env := by
  unfold lookup at h
  exact ⟨List.mem_of_find?_eq_some h, by simpa using List.find?_some h⟩

theorem sameKey_singleton (a : List Identity) (id : Identity) (h : sameKey a [id] = true) :
    id ∈ a := by
  simp only [sameKey, Bool.and_eq_true, List.all_eq_true, decide_eq_true_eq,
    List.mem_singleton, forall_eq] at h
  exact h.2

theorem sameKey_self_singleton (id : Identity) : sameKey [id] [id] = true := by
  simp [sameKey]

theorem dimRecord_append_singleton (dims : List (String × DimHash)) (n m : String)
    (h : DimHash) :
    dimRecord (dims ++ [(m, h)]) n =
      (dimRecord dims n).or (if m = n then some h else none) := by
  unfold dimRecord
  rw [List.find?_append]
  cases hf : List.find? (fun p => decide (p.1 = n)) dims with
  | some p => simp
  | none =>
    by_cases hm : m = n
    · simp [hm]
    · simp [hm]

theorem dimRecord_recordDim_of_ne (dims : List (String × DimHash)) (d : Desc) (n : String)
    (h : d.fqName ≠ n) : dimRecord (recordDim dims d) n = dimRecord dims n := by
  unfold recordDim
  cases hr : dimRecord dims d.fqName with
  | some _ => rfl
  | none =>
    simp only [dimRecord_append_singleton, h, if_false]
    cases dimRecord dims n <;> rfl

theorem dimRecord_recordDim_of_some (dims : List (String × DimHash)) (d : Desc) (n : String)
    (h : DimHash) (hn : dimRecord dims n = some h) :
    dimRecord (recordDim dims d) n = some h := by
  unfold recordDim
  cases hr : dimRecord dims d.fqName with
  | some _ => exact hn
  | none => simp [dimRecord_append_singleton, hn]

theorem dimRecord_recordDim_self (dims : List (String × DimHash)) (d : Desc)
    (h : dimRecord dims d.fqName = none ∨ dimRecord dims d.fqName = some d.dimHash) :
    dimRecord (recordDim dims d) d.fqName = some d.dimHash := by
  rcases h with h | h
  · simp [recordDim, h, dimRecord_append_singleton]
  · exact dimRecord_recordDim_of_some dims d _ _ h

theorem recordDim_of_some (dims : List (String × DimHash)) (d : Desc) (h : DimHash)
    (hn : dimRecord dims d.fqName = some h) : recordDim dims d = dims := by
  simp [recordDim, hn]

theorem Registry.addAll_nil (env : Env) (r : Registry) : r.addAll env [] = r := by
  simp [Registry.addAll]

theorem Registry.addAll_cons (env : Env) (r : Registry) (c : Collector) (cs : List Collector) :
    (r.addAll env [c]).addAll env cs = r.addAll env (c :: cs) := by
  simp [Registry.addAll, List.foldl_append]

theorem Registered_addAll (env : Env) (r : Registry) (cs : List Collector) (id : Identity) :
    Registered env (r.addAll env cs) id ↔ Registered env r id ∨ ∃ c ∈ cs, id ∈ c.ids env := by
  simp [Registered, Registry.addAll, or_and_right, exists_or]

theorem checkDescs_single (env : Env) (r : Registry) (d : Desc) (herr : d.err = false) :
    checkDescs env r [d] { newDescIDs := [], newDimHashesByName := [], duplicateDescErr := none } =
      match dimRecord r.dimHashesByName d.fqName with
      | some h =>
        if h ≠ d.dimHash then .error (.inconsistentDims d)
        else .ok { newDescIDs := [d.id], newDimHashesByName := [],
                   duplicateDescErr :=
                     if Registered env r d.id then some (Error.duplicateDesc d) else none }
      | none =>
        .ok { newDescIDs := [d.id], newDimHashesByName := [(d.fqName, d.dimHash)],
              duplicateDescErr :=
                if Registered env r d.id then some (Error.duplicateDesc d) else none } := by
  have hnil : dimRecord ([] : List (String × DimHash)) d.fqName = none := rfl
  cases hdim : dimRecord r.dimHashesByName d.fqName with
  | some h =>
    by_cases hh : h = d.dimHash
    · simp [checkDescs, herr, hdim, hh]
    · simp [checkDescs, herr, hdim, hh]
  | none => simp [checkDescs, herr, hdim, hnil]

theorem Register_single_ok (env : Env) (r : Registry) (c : Collector) (d : Desc)
    (hd : c.descs env = [d]) (h : CanRegister env r d) :
    Register env r c = .ok (r.addAll env [c]) := by
  obtain ⟨herr, hreg, hdim⟩ := h
  have hfind : r.collectorsByID.find? (fun e => sameKey (e.ids env) [d.id]) = none := by
    rw [List.find?_eq_none]
    intro e he hk
    exact hreg ⟨e, he, sameKey_singleton _ _ hk⟩
  unfold Register
  rw [hd, checkDescs_single env r d herr]
  rcases hdim with hdim | hdim
  · simp [hdim, hfind, hreg, Registry.addAll, recordDim, hd]
  · simp [hdim, hfind, hreg, Registry.addAll, recordDim, hd]

theorem Register_single_error (env : Env) (r : Registry) (c : Collector) (d : Desc)
    (hd : c.descs env = [d]) (h : ¬ CanRegister env r d) :
    ∃ e, Register env r c = .error e := by
  by_cases herr : d.err = true
  · exact ⟨Error.invalidDesc d, by simp [Register, hd, checkDescs, herr]⟩
  have herr' : d.err = false := by simpa using herr
  unfold Register
  rw [hd, checkDescs_single env r d herr']
  cases hdim : dimRecord r.dimHashesByName d.fqName with
  | some h0 =>
    by_cases hh : h0 = d.dimHash
    · subst hh
      have hreg : Registered env r d.id := by
        by_contra hn
        exact h ⟨herr', hn, Or.inr hdim⟩
      cases hf : r.collectorsByID.find? (fun e => sameKey (e.ids env) [d.id]) with
      | some e => exact ⟨Error.alreadyRegistered e c, by simp [hf]⟩
      | none => exact ⟨Error.duplicateDesc d, by simp [hf, hreg]⟩
    · exact ⟨Error.inconsistentDims d, by simp [hh]⟩
  | none =>
    have hreg : Registered env r d.id := by
      by_contra hn
      exact h ⟨herr', hn, Or.inl hdim⟩
    cases hf : r.collectorsByID.find? (fun e => sameKey (e.ids env) [d.id]) with
    | some e => exact ⟨Error.alreadyRegistered e c, by simp [hf]⟩
    | none => exact ⟨Error.duplicateDesc d, by simp [hf, hreg]⟩

theorem Register_single_ok_inv (env : Env) (r r1 : Registry) (c : Collector) (d : Desc)
    (hd : c.descs env = [d]) (h : Register env r c = .ok r1) :
    CanRegister env r d ∧ r1 = r.addAll env [c] := by
  by_cases hc : CanRegister env r d
  · rw [Register_single_ok env r c d hd hc] at h
    exact ⟨hc, (Except.ok.inj h).symm⟩
  · obtain ⟨e, he⟩ := Register_single_error env r c d hd hc
    rw [he] at h
    cases h

theorem not_CanRegister_of_Collides (env : Env) (r : Registry) (d : Desc)
    (h : Collides env r d) : ¬ CanRegister env r d := by
  rintro ⟨_, hreg, hdim⟩
  rcases h with h | ⟨h0, hrec, hne⟩
  · exact hreg h
  · rcases hdim with hdim | hdim
    · rw [hdim] at hrec; cases hrec
    · rw [hdim] at hrec; exact hne (Option.some.inj hrec).symm

theorem ids_of_single (env : Env) (c : Collector) (d : Desc) (hd : c.descs env = [d]) :
    c.ids env = [d.id] := by
  simp [Collector.ids, hd]

theorem addAll_single_dims (env : Env) (r : Registry) (c : Collector) (d : Desc)
    (hd : c.descs env = [d]) :
    (r.addAll env [c]).dimHashesByName = recordDim r.dimHashesByName d := by
  simp [Registry.addAll, hd]

theorem CanRegister_addAll_single (env : Env) (r : Registry) (c : Collector) (d e : Desc)
    (hd : c.descs env = [d]) (hne : d.fqName ≠ e.fqName) (h : CanRegister env r e) :
    CanRegister env (r.addAll env [c]) e := by
  obtain ⟨herr, hreg, hdim⟩ := h
  refine ⟨herr, ?_, ?_⟩
  · rw [Registered_addAll]
    rintro (h | ⟨c1, hc1, hid⟩)
    · exact hreg h
    · rw [List.mem_singleton] at hc1
      subst hc1
      rw [ids_of_single env _ d hd, List.mem_singleton] at hid
      exact id_ne_of_fqName_ne _ _ hne hid.symm
  · rw [addAll_single_dims env r c d hd, dimRecord_recordDim_of_ne _ _ _ hne]
    exact hdim

theorem Collides_addAll_single (env : Env) (r : Registry) (c : Collector) (d e : Desc)
    (hd : c.descs env = [d]) (h : Collides env r e) :
    Collides env (r.addAll env [c]) e := by
  rcases h with h | ⟨h0, hrec, hne⟩
  · exact Or.inl ((Registered_addAll env r [c] _).2 (Or.inl h))
  · refine Or.inr ⟨h0, ?_, hne⟩
    rw [addAll_single_dims env r c d hd]
    exact dimRecord_recordDim_of_some _ _ _ _ hrec

theorem MustRegister_single_ok (env : Env) (c : Collector) (d : Desc) (s : State)
    (hd : c.descs env = [d]) (h : CanRegister env s.registry d) :
    MustRegister env c s = .ok { s with registry := s.registry.addAll env [c] } := by
  simp [MustRegister, Register_single_ok env s.registry c d hd h]

theorem Result.ok_andThen (s : State) (k : State → Result) :
    (Result.ok s).andThen k = k s := rfl

theorem Result.panic_andThen (e : Error) (s : State) (k : State → Result) :
    (Result.panic e s).andThen k = .panic e s := rfl

theorem Result.andThen_ok (r : Result) : r.andThen Result.ok = r := by
  cases r <;> rfl

theorem mustRegisterAll_ok (env : Env) (cs : List Collector) (s : State)
    (hsingle : ∀ c ∈ cs, ∃ d, c.descs env = [d])
    (hpair : cs.Pairwise (DistinctNames env))
    (hcan : ∀ c ∈ cs, ∀ d ∈ c.descs env, CanRegister env s.registry d) :
    mustRegisterAll env cs s = .ok { s with registry := s.registry.addAll env cs } := by
  induction cs generalizing s with
  | nil => simp [mustRegisterAll, Registry.addAll_nil]
  | cons c cs ih =>
    obtain ⟨d, hd⟩ := hsingle c (List.mem_cons_self _ _)
    have hcd : CanRegister env s.registry d :=
      hcan c (List.mem_cons_self _ _) d (by simp [hd])
    rw [List.pairwise_cons] at hpair
    simp only [mustRegisterAll, MustRegister_single_ok env c d s hd hcd, Result.ok_andThen]
    rw [ih _ (fun c1 h1 => hsingle c1 (List.mem_cons_of_mem _ h1)) hpair.2]
    · simp only [Registry.addAll_cons]
    · intro c1 h1 d1 hd1
      exact CanRegister_addAll_single env _ c d d1 hd
        (hpair.1 c1 h1 d (by simp [hd]) d1 hd1)
        (hcan c1 (List.mem_cons_of_mem _ h1) d1 hd1)

theorem mustRegisterAll_panic (env : Env) (cs : List Collector) (s : State)
    (hsingle : ∀ c ∈ cs, ∃ d, c.descs env = [d])
    (h : ∃ c ∈ cs, ∃ d ∈ c.descs env, Collides env s.registry d) :
    ∃ e t, mustRegisterAll env cs s = .panic e t := by
  induction cs generalizing s with
  | nil => simp at h
  | cons c cs ih =>
    obtain ⟨d, hd⟩ := hsingle c (List.mem_cons_self _ _)
    by_cases hcd : CanRegister env s.registry d
    · obtain ⟨c0, hc0, d0, hd0, hcol⟩ := h
      have hc0' : c0 ∈ cs := by
        rcases List.mem_cons.1 hc0 with rfl | h1
        · rw [hd, List.mem_singleton] at hd0
          subst hd0
          exact absurd hcd (not_CanRegister_of_Collides env _ _ hcol)
        · exact h1
      obtain ⟨e, t, he⟩ := ih { s with registry := s.registry.addAll env [c] }
        (fun c1 h1 => hsingle c1 (List.mem_cons_of_mem _ h1))
        ⟨c0, hc0', d0, hd0, Collides_addAll_single env _ c d d0 hd hcol⟩
      exact ⟨e, t, by
        simp only [mustRegisterAll, MustRegister_single_ok env c d s hd hcd,
          Result.ok_andThen, he]⟩
    · obtain ⟨e, he⟩ := Register_single_error env s.registry c d hd hcd
      exact ⟨e, s, by simp [mustRegisterAll, MustRegister, he, Result.andThen]⟩

theorem mustRegisterAll_panic_inv (env : Env) (cs : List Collector) (s t : State) (e : Error)
    (hsingle : ∀ c ∈ cs, ∃ d, c.descs env = [d])
    (h : mustRegisterAll env cs s = .panic e t) :
    ∃ k c, cs[k]? = some c ∧
      t = { s with registry := s.registry.addAll env (cs.take k) } ∧
      Register env t.registry c = .error e ∧
      ∀ c1 ∈ cs.take k, ∀ id ∈ c1.ids env, ¬ Registered env s.registry id := by
  induction cs generalizing s with
  | nil => simp [mustRegisterAll] at h
  | cons c cs ih =>
    obtain ⟨d, hd⟩ := hsingle c (List.mem_cons_self _ _)
    cases hR : Register env s.registry c with
    | error e0 =>
      simp only [mustRegisterAll, MustRegister, hR, Result.panic_andThen, Result.panic.injEq] at h
      obtain ⟨rfl, rfl⟩ := h
      exact ⟨0, c, by simp, by simp [Registry.addAll_nil], hR, by simp⟩
    | ok r1 =>
      obtain ⟨hcd, rfl⟩ := Register_single_ok_inv env _ _ c d hd hR
      simp only [mustRegisterAll, MustRegister, hR, Result.ok_andThen] at h
      obtain ⟨k, c1, hk, ht, herr, hnot⟩ :=
        ih { s with registry := s.registry.addAll env [c] }
          (fun c1 h1 => hsingle c1 (List.mem_cons_of_mem _ h1)) h
      refine ⟨k + 1, c1, by simpa using hk, ?_, herr, ?_⟩
      · rw [ht]
        simp only [List.take_succ_cons, Registry.addAll_cons]
      · intro c2 hc2 id hid
        rw [List.take_succ_cons, List.mem_cons] at hc2
        rcases hc2 with rfl | hc2
        · rw [ids_of_single env _ d hd, List.mem_singleton] at hid
          subst hid
          exact hcd.2.1
        · intro hreg
          exact hnot c2 hc2 id hid ((Registered_addAll env _ _ _).2 (Or.inl hreg))

theorem lookup_addAll_of_registered (env : Env) (r : Registry) (cs : List Collector)
    (id : Identity) (h : Registered env r id) :
    lookup env (r.addAll env cs) id = lookup env r id := by
  cases hl : lookup env r id with
  | none => exact absurd h ((lookup_eq_none_iff env r id).1 hl)
  | some c =>
    unfold lookup at hl ⊢
    simp only [Registry.addAll, List.find?_append, hl]
    rfl

theorem lookup_addAll_of_not_registered (env : Env) (r : Registry) (cs : List Collector)
    (id : Identity) (h : ¬ Registered env r id) :
    lookup env (r.addAll env cs) id = cs.find? (fun c => decide (id ∈ c.ids env)) := by
  have h0 := (lookup_eq_none_iff env r id).2 h
  unfold lookup at h0 ⊢
  simp only [Registry.addAll, List.find?_append, h0]
  rfl

theorem not_mem_ids_of_DistinctNames (env : Env) (a b : Collector) (h : DistinctNames env a b)
    (id : Identity) (hb : id ∈ b.ids env) : id ∉ a.ids env := by
  intro ha
  obtain ⟨da, hda, rfl⟩ := List.mem_map.1 ha
  obtain ⟨db, hdb, heq⟩ := List.mem_map.1 hb
  exact h da hda db hdb (congrArg Identity.fqName heq).symm

theorem find_of_pairwise (env : Env) (cs : List Collector) (hpair : cs.Pairwise (DistinctNames env))
    (c : Collector) (hc : c ∈ cs) (id : Identity) (hid : id ∈ c.ids env) :
    cs.find? (fun c => decide (id ∈ c.ids env)) = some c := by
  induction cs with
  | nil => simp at hc
  | cons a cs ih =>
    rw [List.pairwise_cons] at hpair
    rcases List.mem_cons.1 hc with rfl | hc1
    · simp [List.find?, hid]
    · have hna : id ∉ a.ids env :=
        not_mem_ids_of_DistinctNames env a c (hpair.1 c hc1) id hid
      simp only [List.find?, hna, decide_False]
      exact ih hpair.2 hc1

theorem functional_single (env : Env) :
    ∀ c ∈ functionalGauges.map Collector.gauge, ∃ d, c.descs env = [d] := by
  intro c hc
  obtain ⟨g, _, rfl⟩ := List.mem_map.1 hc
  exact ⟨_, rfl⟩

theorem base_single (env : Env) : ∀ c ∈ baseCollectors env, ∃ d, c.descs env = [d] := by
  intro c hc
  simp only [baseCollectors, List.mem_cons, List.mem_singleton, List.not_mem_nil, or_false] at hc
  rcases hc with rfl | rfl | rfl <;> exact ⟨_, rfl⟩

theorem DistinctNames_gauge (env : Env) (g h : GaugeVar) (hne : g ≠ h) :
    DistinctNames env (.gauge g) (.gauge h) := by
  intro da hda db hdb
  simp only [Collector.descs, List.mem_singleton] at hda hdb
  subst hda hdb
  exact fun e => hne ((gauge_fqName_inj env g h).1 e)

theorem DistinctNames_gauge_buildInfo (env : Env) (g : GaugeVar) :
    DistinctNames env (.gauge g) (buildInfo env) := by
  intro da hda db hdb
  simp only [Collector.descs, buildInfo, List.mem_singleton] at hda hdb
  subst hda hdb
  exact fun e => buildInfo_fqName_ne env g e.symm

theorem functional_pairwise (env : Env) :
    (functionalGauges.map Collector.gauge).Pairwise (DistinctNames env) := by
  simp only [functionalGauges, List.map, List.pairwise_cons, List.mem_cons, List.mem_singleton,
    List.not_mem_nil, forall_eq_or_imp, forall_eq, false_imp_iff, implies_true, and_true,
    List.Pairwise.nil]
  refine ⟨⟨?_, ?_, ?_⟩, ⟨?_, ?_⟩, ?_⟩ <;> exact DistinctNames_gauge env _ _ (by decide)

theorem base_pairwise (env : Env) : (baseCollectors env).Pairwise (DistinctNames env) := by
  simp only [baseCollectors, List.pairwise_cons, List.mem_cons, List.mem_singleton,
    List.not_mem_nil, forall_eq_or_imp, forall_eq, false_imp_iff, implies_true, and_true,
    List.Pairwise.nil]
  exact ⟨⟨DistinctNames_gauge env _ _ (by decide), DistinctNames_gauge_buildInfo env _⟩,
    DistinctNames_gauge_buildInfo env _⟩

theorem Unregister_state (env : Env) (c : Collector) (s : State) :
    (Unregister env c s).2 =
      { s with registry :=
        { s.registry with collectorsByID :=
            s.registry.collectorsByID.filter (fun e => !sameKey (e.ids env) (c.ids env)) } } := by
  unfold Unregister
  split
  · rfl
  · rename_i h
    have hself : s.registry.collectorsByID.filter
        (fun e => !sameKey (e.ids env) (c.ids env)) = s.registry.collectorsByID := by
      rw [List.filter_eq_self]
      intro e he
      simp only [List.any_eq_true, not_exists, not_and, Bool.not_eq_true] at h
      simp [h e he]
    simp only [hself]

theorem UnregisterClusterManagerFunctional_eq (env : Env) (s : State) :
    UnregisterClusterManagerFunctional env s =
      .ok { s with registry :=
        { s.registry with collectorsByID :=
            s.registry.collectorsByID.filter (notFunctional env) } } := by
  unfold notFunctional
  simp only [UnregisterClusterManagerFunctional, Unregister_state, List.filter_filter,
    functionalGauges]
  congr 3
  apply List.filter_congr
  intro e _
  rw [Bool.eq_iff_iff]
  simp only [List.all_cons, List.all_nil, Bool.and_true, Bool.and_eq_true, Collector.ids,
    Collector.descs, List.map, GaugeVar.identity, GaugeOpts.identity]
  tauto

theorem notFunctional_gauge (env : Env) (g : GaugeVar) (hg : g ∈ functionalGauges) :
    notFunctional env (.gauge g) = false := by
  simp only [notFunctional, List.all_eq_false, Bool.not_eq_true, Bool.not_eq_false']
  exact ⟨g, hg, sameKey_self_singleton _⟩

theorem notFunctional_of_not_registered (env : Env) (r : Registry) (e : Collector)
    (he : e ∈ r.collectorsByID)
    (h : ∀ g ∈ functionalGauges, ¬ Registered env r (g.identity env)) :
    notFunctional env e = true := by
  simp only [notFunctional, List.all_eq_true, Bool.not_eq_true']
  intro g hg
  by_contra hk
  simp only [Bool.not_eq_false] at hk
  exact h g hg ⟨e, he, sameKey_singleton _ _ hk⟩

theorem filter_notFunctional_eq_self (env : Env) (s : State)
    (h : FunctionalUnregistered env s) :
    s.registry.collectorsByID.filter (notFunctional env) = s.registry.collectorsByID := by
  rw [List.filter_eq_self]
  intro e he
  exact notFunctional_of_not_registered env s.registry e he h

theorem filter_notFunctional_gauges (env : Env) :
    (functionalGauges.map Collector.gauge).filter (notFunctional env) = [] := by
  rw [List.filter_eq_nil_iff]
  intro e he
  obtain ⟨g, hg, rfl⟩ := List.mem_map.1 he
  simp [notFunctional_gauge env g hg]

theorem FunctionalUnregistered_of_Registrable (env : Env) (s : State)
    (h : FunctionalRegistrable env s) : FunctionalUnregistered env s :=
  fun g hg => (h g hg).2.1

theorem callN_ok_fixed (op : State → Result) (s : State) (h : op s = .ok s) (n : Nat) :
    callN op n s = .ok s := by
  induction n with
  | zero => rfl
  | succ k ih => simp [callN, h, Result.andThen, ih]

theorem RegisterClusterManagerBase_done (env : Env) (s : State)
    (h : s.registerClusterManagerBaseMetrics = true) :
    RegisterClusterManagerBase env s = .ok s := by
  simp [RegisterClusterManagerBase, Once.Do, h]

theorem RegisterClusterManagerFunctional_eq_all (env : Env) (s : State) :
    RegisterClusterManagerFunctional env s =
      mustRegisterAll env (functionalGauges.map Collector.gauge) s := by
  simp only [RegisterClusterManagerFunctional, functionalGauges, List.map, mustRegisterAll]
  congr 1; funext s1; congr 1; funext s2; congr 1; funext s3
  exact (Result.andThen_ok _).symm

theorem RegisterClusterManagerBase_eq_all (env : Env) (s : State) :
    RegisterClusterManagerBase env s = Once.Do (mustRegisterAll env (baseCollectors env)) s := by
  simp only [RegisterClusterManagerBase, baseCollectors, mustRegisterAll]
  congr 1; funext s0; congr 1; funext s1; congr 1; funext s2
  exact (Result.andThen_ok _).symm

theorem Once.Do_ok (f : State → Result) (s t : State)
    (hguard : s.registerClusterManagerBaseMetrics = false) (hf : f s = .ok t) :
    Once.Do f s = .ok { t with registerClusterManagerBaseMetrics := true } := by
  simp [Once.Do, hguard, hf]

theorem Once.Do_panic (f : State → Result) (s t : State) (e : Error)
    (hguard : s.registerClusterManagerBaseMetrics = false) (hf : f s = .panic e t) :
    Once.Do f s = .panic e { t with registerClusterManagerBaseMetrics := true } := by
  simp [Once.Do, hguard, hf]

theorem dimRecord_foldl_of_some (ds : List Desc) (dims : List (String × DimHash)) (n : String)
    (h : DimHash) (hn : dimRecord dims n = some h) :
    dimRecord (ds.foldl recordDim dims) n = some h := by
  induction ds generalizing dims with
  | nil => exact hn
  | cons a ds ih => exact ih _ (dimRecord_recordDim_of_some dims a n h hn)

theorem foldl_recordDim_of_recorded (ds : List Desc) (dims : List (String × DimHash))
    (h : ∀ d ∈ ds, ∃ x, dimRecord dims d.fqName = some x) :
    ds.foldl recordDim dims = dims := by
  induction ds with
  | nil => rfl
  | cons a ds ih =>
    obtain ⟨x, hx⟩ := h a (List.mem_cons_self _ _)
    simp only [List.foldl_cons, recordDim_of_some dims a x hx]
    exact ih (fun d hd => h d (List.mem_cons_of_mem _ hd))

theorem dimRecord_addAll_own (env : Env) (cs : List Collector) (r : Registry)
    (hsingle : ∀ c ∈ cs, ∃ d, c.descs env = [d])
    (hpair : cs.Pairwise (DistinctNames env))
    (hcan : ∀ c ∈ cs, ∀ d ∈ c.descs env, CanRegister env r d) :
    ∀ c ∈ cs, ∀ d ∈ c.descs env,
      dimRecord (r.addAll env cs).dimHashesByName d.fqName = some d.dimHash := by
  induction cs generalizing r with
  | nil => simp
  | cons a cs ih =>
    obtain ⟨da, hda⟩ := hsingle a (List.mem_cons_self _ _)
    rw [List.pairwise_cons] at hpair
    intro c hc d hd
    rw [← Registry.addAll_cons]
    rcases List.mem_cons.1 hc with rfl | hc1
    · rw [hda, List.mem_singleton] at hd
      subst hd
      have h1 : dimRecord (r.addAll env [c]).dimHashesByName d.fqName = some d.dimHash := by
        rw [addAll_single_dims env r c d hda]
        exact dimRecord_recordDim_self _ _ (hcan c (List.mem_cons_self _ _) d (by simp [hda])).2.2
      exact dimRecord_foldl_of_some _ _ _ _ h1
    · exact ih (r.addAll env [a]) (fun c1 h1 => hsingle c1 (List.mem_cons_of_mem _ h1)) hpair.2
        (fun c1 h1 d1 hd1 => CanRegister_addAll_single env r a da d1 hda
          (hpair.1 c1 h1 da (by simp [hda]) d1 hd1)
          (hcan c1 (List.mem_cons_of_mem _ h1) d1 hd1)) c hc1 d hd

theorem Registered_of_collectors_eq (env : Env) (r1 r2 : Registry) (id : Identity)
    (h : r1.collectorsByID = r2.collectorsByID) :
    Registered env r1 id ↔ Registered env r2 id := by
  simp [Registered, h]

theorem lookup_functionalGauges (env : Env) (g : GaugeVar) (hg : g ∈ functionalGauges) :
    (functionalGauges.map Collector.gauge).find? (fun c => decide (g.identity env ∈ c.ids env)) =
      some (.gauge g) :=
  find_of_pairwise env _ (functional_pairwise env) _ (List.mem_map.2 ⟨g, hg, rfl⟩) _
    (by simp [Collector.ids, Collector.descs, GaugeVar.identity, GaugeOpts.identity])

theorem addAll_readd (env : Env) (r : Registry) (cs : List Collector)
    (hsingle : ∀ c ∈ cs, ∃ d, c.descs env = [d])
    (hpair : cs.Pairwise (DistinctNames env))
    (hcan : ∀ c ∈ cs, ∀ d ∈ c.descs env, CanRegister env r d) :
    Registry.addAll env { r.addAll env cs with collectorsByID := r.collectorsByID } cs =
      r.addAll env cs := by
  have hown := dimRecord_addAll_own env cs r hsingle hpair hcan
  have hd : (cs.flatMap (fun c => c.descs env)).foldl recordDim (r.addAll env cs).dimHashesByName
      = (r.addAll env cs).dimHashesByName := by
    apply foldl_recordDim_of_recorded
    intro d hd
    obtain ⟨c, hc, hdc⟩ := List.mem_flatMap.1 hd
    exact ⟨_, hown c hc d hdc⟩
  show Registry.mk _ _ _ = _
  simp only [hd]
  rfl

theorem RegisterClusterManagerFunctional_ok (env : Env) (s : State)
    (h : FunctionalRegistrable env s) :
    RegisterClusterManagerFunctional env s =
      .ok { s with registry :=
              s.registry.addAll env (functionalGauges.map Collector.gauge) } := by
  rw [RegisterClusterManagerFunctional_eq_all]
  apply mustRegisterAll_ok env _ s (functional_single env) (functional_pairwise env)
  intro c hc d hd
  obtain ⟨g, hg, rfl⟩ := List.mem_map.1 hc
  simp only [Collector.descs, List.mem_singleton] at hd
  subst hd
  exact h g hg

theorem RegisterClusterManagerBase_ok (env : Env) (s : State)
    (hguard : s.registerClusterManagerBaseMetrics = false) (hbase : BaseRegistrable env s) :
    RegisterClusterManagerBase env s =
      .ok { s with registerClusterManagerBaseMetrics := true
                   registry := s.registry.addAll env (baseCollectors env) } := by
  rw [RegisterClusterManagerBase_eq_all,
    Once.Do_ok _ s _ hguard
      (mustRegisterAll_ok env _ s (base_single env) (base_pairwise env) hbase)]

theorem FunctionalRegistered_addAll (env : Env) (s : State) (r : Registry)
    (hr : ∀ g ∈ functionalGauges, ¬ Registered env r (g.identity env))
    (hs : s.registry = r.addAll env (functionalGauges.map Collector.gauge)) :
    FunctionalRegistered env s := by
  intro g hg
  rw [hs, lookup_addAll_of_not_registered env r _ _ (hr g hg)]
  exact lookup_functionalGauges env g hg

theorem functional_can_reregister (env : Env) (s : State) (h : FunctionalRegistrable env s)
    (value : GaugeVar → float64) :
    RegisterClusterManagerFunctional env
        { registerClusterManagerBaseMetrics := s.registerClusterManagerBaseMetrics
          registry :=
            { s.registry.addAll env (functionalGauges.map Collector.gauge) with
              collectorsByID := s.registry.collectorsByID }
          value := value } =
      .ok { registerClusterManagerBaseMetrics := s.registerClusterManagerBaseMetrics
            registry := s.registry.addAll env (functionalGauges.map Collector.gauge)
            value := value } := by
  have hcan : ∀ c ∈ functionalGauges.map Collector.gauge, ∀ d ∈ c.descs env,
      CanRegister env s.registry d := by
    intro c hc d hd
    obtain ⟨g, hg, rfl⟩ := List.mem_map.1 hc
    simp only [Collector.descs, List.mem_singleton] at hd
    subst hd
    exact h g hg
  have hown := dimRecord_addAll_own env _ s.registry (functional_single env)
    (functional_pairwise env) hcan
  rw [RegisterClusterManagerFunctional_ok]
  · simp only [addAll_readd env s.registry _ (functional_single env) (functional_pairwise env)
      hcan]
  · intro g hg
    refine ⟨(h g hg).1, ?_, Or.inr ?_⟩
    · exact fun hreg => (h g hg).2.1 ((Registered_of_collectors_eq env _ _ _ rfl).1 hreg)
    · exact hown (.gauge g) (List.mem_map.2 ⟨g, hg, rfl⟩) _ (by simp [Collector.descs])

theorem functional_unregister_after_register (env : Env) (s : State)
    (h : FunctionalUnregistered env s) (value : GaugeVar → float64) :
    UnregisterClusterManagerFunctional env
        { registerClusterManagerBaseMetrics := s.registerClusterManagerBaseMetrics
          registry := s.registry.addAll env (functionalGauges.map Collector.gauge)
          value := value } =
      .ok { registerClusterManagerBaseMetrics := s.registerClusterManagerBaseMetrics
            registry :=
              { s.registry.addAll env (functionalGauges.map Collector.gauge) with
                collectorsByID := s.registry.collectorsByID }
            value := value } := by
  rw [UnregisterClusterManagerFunctional_eq]
  simp only [Registry.addAll, List.filter_append, filter_notFunctional_gauges,
    List.append_nil, filter_notFunctional_eq_self env s h]

theorem countP_eq_zero_of_not_registered (env : Env) (r : Registry) (id : Identity)
    (h : ¬ Registered env r id) :
    r.collectorsByID.countP (fun e => decide (id ∈ e.ids env)) = 0 := by
  rw [List.countP_eq_zero]
  intro e he
  simp only [decide_eq_true_eq]
  exact fun hid => h ⟨e, he, hid⟩

theorem countP_of_pairwise (env : Env) (cs : List Collector)
    (hpair : cs.Pairwise (DistinctNames env)) (c : Collector) (hc : c ∈ cs) (id : Identity)
    (hid : id ∈ c.ids env) :
    cs.countP (fun e => decide (id ∈ e.ids env)) = 1 := by
  induction cs with
  | nil => simp at hc
  | cons a cs ih =>
    rw [List.pairwise_cons] at hpair
    rcases List.mem_cons.1 hc with rfl | hc1
    · have hzero : cs.countP (fun e => decide (id ∈ e.ids env)) = 0 := by
        rw [List.countP_eq_zero]
        intro e he
        simp only [decide_eq_true_eq]
        exact fun hie => not_mem_ids_of_DistinctNames env c e (hpair.1 e he) id hie hid
      simp [List.countP_cons, hid, hzero]
    · have hna : id ∉ a.ids env :=
        not_mem_ids_of_DistinctNames env a c (hpair.1 c hc1) id hid
      simp [List.countP_cons, hna, ih hpair.2 hc1]

theorem Set_value_self (g : GaugeVar) (v : float64) (s : State) :
    (GaugeVar.Set g v s).value g = v := by
  simp [GaugeVar.Set]

theorem Set_value_of_ne (g h : GaugeVar) (v : float64) (s : State) (hne : h ≠ g) :
    (GaugeVar.Set g v s).value h = s.value h := by
  simp [GaugeVar.Set, Function.update, hne]

theorem Set_registry (g : GaugeVar) (v : float64) (s : State) :
    (GaugeVar.Set g v s).registry = s.registry := rfl

theorem collect_congr (env : Env) (c : Collector) (s t : State)
    (h : ∀ g, c = .gauge g → t.value g = s.value g) : c.collect env t = c.collect env s := by
  cases c with
  | gauge g => simp [Collector.collect, h g rfl]
  | gaugeFunc o f => rfl
  | other descs metrics => rfl

theorem Gather_congr (env : Env) (s t : State) (hr : t.registry = s.registry)
    (h : ∀ g, Collector.gauge g ∈ s.registry.collectorsByID → t.value g = s.value g) :
    Gather env t = Gather env s := by
  unfold Gather
  rw [hr]
  congr 1
  have hmap : s.registry.collectorsByID.map (fun c => c.collect env t) =
      s.registry.collectorsByID.map (fun c => c.collect env s) :=
    List.map_congr_left (fun c hc => collect_congr env c s t (fun g hg => h g (hg ▸ hc)))
  simp only [List.flatMap, hmap]

theorem readMetric_congr (env : Env) (s t : State) (hr : t.registry = s.registry)
    (h : ∀ g, Collector.gauge g ∈ s.registry.collectorsByID → t.value g = s.value g)
    (id : Identity) : readMetric env t id = readMetric env s id := by
  unfold readMetric
  rw [hr]
  cases hl : lookup env s.registry id with
  | none => rfl
  | some c =>
    have hc := (lookup_some_mem env _ _ _ hl).1
    simp only [collect_congr env c s t (fun g hg => h g (hg ▸ hc))]

theorem not_mem_of_FunctionalUnregistered (env : Env) (s : State)
    (h : FunctionalUnregistered env s) (g : GaugeVar) (hg : g ∈ functionalGauges) :
    Collector.gauge g ∉ s.registry.collectorsByID :=
  fun hmem => h g hg ⟨.gauge g, hmem, by
    simp [Collector.ids, Collector.descs, GaugeVar.identity, GaugeOpts.identity]⟩

theorem readMetric_of_lookup_gauge (env : Env) (s : State) (g : GaugeVar)
    (h : lookup env s.registry (g.identity env) = some (.gauge g)) :
    readMetric env s (g.identity env) = some (s.value g) := by
  unfold readMetric
  rw [h]
  simp [Collector.collect, List.find?, GaugeVar.identity, GaugeOpts.identity]

theorem reacquireScenario_eq (env : Env) (c4 c6 a4 a6 : float64) (s : State)
    (h : FunctionalRegistrable env s) :
    reacquireScenario env c4 c6 a4 a6 s =
      .ok { registerClusterManagerBaseMetrics := s.registerClusterManagerBaseMetrics
            registry := s.registry.addAll env (functionalGauges.map Collector.gauge)
            value := (GaugeVar.Set .metricV6AllocatedHostSubnetCount a6
              (GaugeVar.Set .metricV4AllocatedHostSubnetCount a4
                (GaugeVar.Set .metricV6HostSubnetCount c6
                  (GaugeVar.Set .metricV4HostSubnetCount c4 s)))).value } := by
  unfold reacquireScenario
  rw [RegisterClusterManagerFunctional_ok env s h]
  simp only [Result.andThen, RecordSubnetCount, RecordSubnetUsage, GaugeVar.Set]
  rw [functional_unregister_after_register env s (FunctionalUnregistered_of_Registrable env s h)]
  exact functional_can_reregister env s h _

theorem lookup_baseCollectors_buildInfo (env : Env) (r : Registry)
    (h : ¬ Registered env r (buildInfoOpts env).identity) :
    lookup env (r.addAll env (baseCollectors env)) (buildInfoOpts env).identity =
      some (buildInfo env) := by
  rw [lookup_addAll_of_not_registered env r _ _ h]
  exact find_of_pairwise env _ (base_pairwise env) _ (by simp [baseCollectors]) _
    (by simp [Collector.ids, Collector.descs, buildInfo, GaugeOpts.identity])

theorem buildInfo_not_registered (env : Env) (s : State) (h : BaseRegistrable env s) :
    ¬ Registered env s.registry (buildInfoOpts env).identity :=
  (h (buildInfo env) (by simp [baseCollectors]) (buildInfoOpts env).desc
    (by simp [buildInfo, Collector.descs])).2.1

theorem Result.eq_panic_of_not_returned (r : Result) (h : r.returned = false) :
    ∃ e, r = .panic e r.state := by
  cases r with
  | ok s => simp [Result.returned] at h
  | panic e s => exact ⟨e, rfl⟩

/-! ### The claims -/

/-- C1, as stated, fails: after another subsystem has registered a gauge named `leader`
with a help string of its own and unregistered it again, the guard has not run, the
registry holds no collector at all, so none of the three base identities is registered,
and yet the first call of `RegisterClusterManagerBase` panics and leaves `leader`
unregistered. -/
theorem stale_record_breaks_base_registration :
    (afterForeignTerm sampleEnv
        (foreignGauge sampleEnv "leader" "held by another subsystem" [])
      ).registerClusterManagerBaseMetrics = false ∧
    (afterForeignTerm sampleEnv
        (foreignGauge sampleEnv "leader" "held by another subsystem" [])
      ).registry.collectorsByID.isEmpty = true ∧
    BaseUnregistered sampleEnv
      (afterForeignTerm sampleEnv
        (foreignGauge sampleEnv "leader" "held by another subsystem" [])) ∧
    (RegisterClusterManagerBase sampleEnv
      (afterForeignTerm sampleEnv
        (foreignGauge sampleEnv "leader" "held by another subsystem" []))).returned = false ∧
    ¬ Registered sampleEnv
      (RegisterClusterManagerBase sampleEnv
        (afterForeignTerm sampleEnv
          (foreignGauge sampleEnv "leader" "held by another subsystem" []))).state.registry
      (GaugeVar.identity sampleEnv .MetricClusterManagerLeader) := by
  refine ⟨by decide, by decide, by decide, by decide, by decide⟩

/-- C1, amended: from a state in which the one-time guard has not run and the registry can
take the three base collectors (their names are valid, none of their descriptor IDs is
held, and none of their names is on record with another help string or other label
names), `RegisterClusterManagerBase` returns with the guard consumed and the three base
collectors filed; any number `n ≥ 1` of sequential calls ends in that same state without
a panic; a further call returns and changes nothing; and each base descriptor ID is held
by exactly one collector of the registry. -/
theorem RegisterClusterManagerBase_idempotent (env : Env) (s : State)
    (hguard : s.registerClusterManagerBaseMetrics = false) (hbase : BaseRegistrable env s)
    (n : Nat) (hn : 1 ≤ n) :
    RegisterClusterManagerBase env s =
        .ok { s with registerClusterManagerBaseMetrics := true
                     registry := s.registry.addAll env (baseCollectors env) } ∧
      callN (RegisterClusterManagerBase env) n s = RegisterClusterManagerBase env s ∧
      RegisterClusterManagerBase env
          { s with registerClusterManagerBaseMetrics := true
                   registry := s.registry.addAll env (baseCollectors env) } =
        .ok { s with registerClusterManagerBaseMetrics := true
                     registry := s.registry.addAll env (baseCollectors env) } ∧
      ∀ c ∈ baseCollectors env, ∀ id ∈ c.ids env,
        (s.registry.addAll env (baseCollectors env)).collectorsByID.countP
          (fun e => decide (id ∈ e.ids env)) = 1 := by
  have hok := RegisterClusterManagerBase_ok env s hguard hbase
  have hfix := RegisterClusterManagerBase_done env
    { s with registerClusterManagerBaseMetrics := true
             registry := s.registry.addAll env (baseCollectors env) } rfl
  refine ⟨hok, ?_, hfix, ?_⟩
  · obtain ⟨k, rfl⟩ : ∃ k, n = k + 1 := ⟨n - 1, by omega⟩
    simp only [callN, hok, Result.andThen]
    exact callN_ok_fixed _ _ hfix k
  · intro c hc id hid
    have hnot : ¬ Registered env s.registry id := by
      obtain ⟨d, hd, rfl⟩ := List.mem_map.1 hid
      exact (hbase c hc d hd).2.1
    show (s.registry.collectorsByID ++ baseCollectors env).countP _ = 1
    rw [List.countP_append, countP_eq_zero_of_not_registered env s.registry id hnot,
      Nat.zero_add]
    exact countP_of_pairwise env _ (base_pairwise env) c hc id hid

/-- C2, as stated, fails: after another subsystem has registered a gauge named
`num_v6_host_subnets` with a help string of its own and unregistered it again, the
registry holds no collector, so none of the four functional identities is registered, and
yet `RegisterClusterManagerFunctional` panics, at its second registration: it leaves
`num_v4_host_subnets` registered and `num_v6_host_subnets` not. -/
theorem stale_record_breaks_functional_registration :
    (afterForeignTerm sampleEnv
        (foreignGauge sampleEnv "num_v6_host_subnets" "held by another subsystem" [])
      ).registry.collectorsByID.isEmpty = true ∧
    FunctionalUnregistered sampleEnv
      (afterForeignTerm sampleEnv
        (foreignGauge sampleEnv "num_v6_host_subnets" "held by another subsystem" [])) ∧
    (RegisterClusterManagerFunctional sampleEnv
      (afterForeignTerm sampleEnv
        (foreignGauge sampleEnv "num_v6_host_subnets" "held by another subsystem" []))
      ).returned = false ∧
    Registered sampleEnv
      (RegisterClusterManagerFunctional sampleEnv
        (afterForeignTerm sampleEnv
          (foreignGauge sampleEnv "num_v6_host_subnets" "held by another subsystem" []))
        ).state.registry
      (GaugeVar.identity sampleEnv .metricV4HostSubnetCount) ∧
    ¬ Registered sampleEnv
      (RegisterClusterManagerFunctional sampleEnv
        (afterForeignTerm sampleEnv
          (foreignGauge sampleEnv "num_v6_host_subnets" "held by another subsystem" []))
        ).state.registry
      (GaugeVar.identity sampleEnv .metricV6HostSubnetCount) := by
  refine ⟨by decide, by decide, by decide, by decide, by decide⟩

/-- C2, amended: from a state in which the registry can take the four functional gauges
(their names are valid, none of their descriptor IDs is held, and none of their names is
on record with another help string or other label names),
`RegisterClusterManagerFunctional` returns with the four gauges registered;
`UnregisterClusterManagerFunctional` then returns with the collectors held before and the
four absent, their names staying on record; a registration after that succeeds again;
and any number of such register/unregister terms returns without a panic, as does a
registration following them. -/
theorem functional_register_unregister_cycles (env : Env) (s : State)
    (h : FunctionalRegistrable env s) (n : Nat) :
    RegisterClusterManagerFunctional env s = .ok (s.leading env) ∧
      FunctionalRegistered env (s.leading env) ∧
      UnregisterClusterManagerFunctional env (s.leading env) = .ok (s.betweenTerms env) ∧
      (s.betweenTerms env).registry.collectorsByID = s.registry.collectorsByID ∧
      FunctionalUnregistered env (s.betweenTerms env) ∧
      RegisterClusterManagerFunctional env (s.betweenTerms env) = .ok (s.leading env) ∧
      callN (leadershipTerm env) (n + 1) s = .ok (s.betweenTerms env) ∧
      (callN (leadershipTerm env) n s).andThen (RegisterClusterManagerFunctional env) =
        .ok (s.leading env) := by
  simp only [State.leading, State.betweenTerms]
  have hun0 := FunctionalUnregistered_of_Registrable env s h
  have hreg := RegisterClusterManagerFunctional_ok env s h
  have hun := functional_unregister_after_register env s hun0 s.value
  have hre := functional_can_reregister env s h s.value
  have hterm : leadershipTerm env s = .ok { s with registry :=
      { s.registry.addAll env (functionalGauges.map Collector.gauge) with
        collectorsByID := s.registry.collectorsByID } } := by
    simp only [leadershipTerm, hreg, Result.ok_andThen]
    exact hun
  have hterm2 : leadershipTerm env { s with registry :=
      { s.registry.addAll env (functionalGauges.map Collector.gauge) with
        collectorsByID := s.registry.collectorsByID } } = .ok { s with registry :=
      { s.registry.addAll env (functionalGauges.map Collector.gauge) with
        collectorsByID := s.registry.collectorsByID } } := by
    unfold leadershipTerm
    rw [hre, Result.ok_andThen]
    exact hun
  have hN : callN (leadershipTerm env) (n + 1) s = .ok { s with registry :=
      { s.registry.addAll env (functionalGauges.map Collector.gauge) with
        collectorsByID := s.registry.collectorsByID } } := by
    simp only [callN, hterm, Result.ok_andThen]
    exact callN_ok_fixed _ _ hterm2 n
  refine ⟨hreg, FunctionalRegistered_addAll env _ s.registry hun0 rfl, hun, trivial, ?_, hre, hN, ?_⟩
  · intro g hg hr
    exact hun0 g hg ((Registered_of_collectors_eq env _ _ _ rfl).1 hr)
  · cases n with
    | zero => simp only [callN, Result.ok_andThen, hreg]
    | succ k =>
      have hk : callN (leadershipTerm env) (k + 1) s = .ok { s with registry :=
          { s.registry.addAll env (functionalGauges.map Collector.gauge) with
            collectorsByID := s.registry.collectorsByID } } := by
        simp only [callN, hterm, Result.ok_andThen]
        exact callN_ok_fixed _ _ hterm2 k
      rw [hk, Result.ok_andThen]
      exact hre

/-- C3, as stated, fails.  With a gauge `num_v4_host_subnets` of another subsystem that
carries the const label `zone`, the name `num_v4_host_subnets` is registered before
`UnregisterClusterManagerFunctional` and still registered after it.  With a collector of
another subsystem that describes `num_v4_host_subnets` next to a second metric, the very
descriptor ID of the gauge is registered before the call and still registered after. -/
theorem unregister_leaves_foreign_holders :
    NameRegistered sampleEnv
      (withForeign sampleEnv (foreignGauge sampleEnv "num_v4_host_subnets"
        "The total number of v4 host subnets possible" [("zone", "a")])).registry
      (GaugeVar.opts sampleEnv .metricV4HostSubnetCount).desc.fqName ∧
    NameRegistered sampleEnv
      (UnregisterClusterManagerFunctional sampleEnv
        (withForeign sampleEnv (foreignGauge sampleEnv "num_v4_host_subnets"
          "The total number of v4 host subnets possible" [("zone", "a")]))).state.registry
      (GaugeVar.opts sampleEnv .metricV4HostSubnetCount).desc.fqName ∧
    Registered sampleEnv (withForeign sampleEnv (pairCollector sampleEnv)).registry
      (GaugeVar.identity sampleEnv .metricV4HostSubnetCount) ∧
    Registered sampleEnv
      (UnregisterClusterManagerFunctional sampleEnv
        (withForeign sampleEnv (pairCollector sampleEnv))).state.registry
      (GaugeVar.identity sampleEnv .metricV4HostSubnetCount) := by
  refine ⟨by decide, by decide, by decide, by decide⟩

/-- C3, amended: in every state `UnregisterClusterManagerFunctional` returns normally.
It drops exactly the collectors whose descriptor IDs are one of the four functional IDs
(fully-qualified name, no const-label value) and nothing else: a collector that shares
only the name, or that describes a further metric, stays.  The registered IDs after the
call are those of the collectors kept; the records per name, the guard and the gauge
values are untouched; and when none of the four IDs was registered the state is
unchanged. -/
theorem UnregisterClusterManagerFunctional_removes_exactly (env : Env) (s : State) :
    UnregisterClusterManagerFunctional env s =
        .ok { s with registry :=
                { s.registry with collectorsByID :=
                    s.registry.collectorsByID.filter (notFunctional env) } } ∧
      (∀ e : Collector, notFunctional env e = false ↔
        ∃ g ∈ functionalGauges, g.identity env ∈ e.ids env ∧
          ∀ id ∈ e.ids env, id = g.identity env) ∧
      (∀ id, Registered env
          { s.registry with collectorsByID :=
              s.registry.collectorsByID.filter (notFunctional env) } id ↔
        ∃ c ∈ s.registry.collectorsByID, notFunctional env c = true ∧ id ∈ c.ids env) ∧
      (FunctionalUnregistered env s → UnregisterClusterManagerFunctional env s = .ok s) := by
  refine ⟨UnregisterClusterManagerFunctional_eq env s, ?_, ?_, fun h => ?_⟩
  · intro e
    simp only [notFunctional, List.all_eq_false, Bool.not_eq_true, Bool.not_eq_false', sameKey,
      Bool.and_eq_true, List.all_eq_true, decide_eq_true_eq, List.mem_singleton,
      List.all_cons, List.all_nil, Bool.and_true]
    constructor
    · rintro ⟨g, hg, h1, h2⟩
      exact ⟨g, hg, h2, h1⟩
    · rintro ⟨g, hg, h1, h2⟩
      exact ⟨g, hg, h2, h1⟩
  · intro id
    simp only [Registered, List.mem_filter]
    constructor
    · rintro ⟨c, ⟨hc, hn⟩, hid⟩
      exact ⟨c, hc, hn, hid⟩
    · rintro ⟨c, hc, hn, hid⟩
      exact ⟨c, ⟨hc, hn⟩, hid⟩
  · rw [UnregisterClusterManagerFunctional_eq, filter_notFunctional_eq_self env s h]

/-- C4, as stated, fails: with a `build_info` gauge function of another subsystem that has
the same name, help string and label names but other label values, the guard has not run
and the name `build_info` is registered, and yet `RegisterClusterManagerBase` returns
normally; afterwards the registry holds two collectors of that name. -/
theorem twin_build_info_does_not_collide :
    (withForeign sampleEnv (twinBuildInfo sampleEnv)).registerClusterManagerBaseMetrics =
      false ∧
    NameRegistered sampleEnv (withForeign sampleEnv (twinBuildInfo sampleEnv)).registry
      (buildInfoOpts sampleEnv).desc.fqName ∧
    (RegisterClusterManagerBase sampleEnv
      (withForeign sampleEnv (twinBuildInfo sampleEnv))).returned = true ∧
    (RegisterClusterManagerBase sampleEnv
      (withForeign sampleEnv (twinBuildInfo sampleEnv))).state.registry.collectorsByID.countP
        (fun c => decide (∃ d ∈ c.descs sampleEnv,
          d.fqName = (buildInfoOpts sampleEnv).desc.fqName)) = 2 := by
  refine ⟨by decide, by decide, by decide, by decide⟩

/-- C4, amended: a registration that meets a descriptor already present panics and
overwrites nothing, where present means that the descriptor ID (fully-qualified name with
const-label values) is held, or that the name is on record with another help string or
other label names.  If that is so for one of the four functional gauges in `s`,
`RegisterClusterManagerFunctional` panics; if the guard has not run in `t` and it is so
for one of the three base collectors, `RegisterClusterManagerBase` panics.  In both cases
the registry at the panic is the old one with collectors of this package only added
behind, and under every descriptor ID that was registered before the registry still holds
the same collector. -/
theorem register_collision_is_fatal (env : Env) (s t : State)
    (hs : ∃ g ∈ functionalGauges, Collides env s.registry (g.opts env).desc)
    (hguard : t.registerClusterManagerBaseMetrics = false)
    (ht : ∃ c ∈ baseCollectors env, ∃ d ∈ c.descs env, Collides env t.registry d) :
    (∃ e added,
        RegisterClusterManagerFunctional env s =
          .panic e { s with registry := s.registry.addAll env added } ∧
        ∀ id, Registered env s.registry id →
          lookup env (s.registry.addAll env added) id = lookup env s.registry id) ∧
      (∃ e added,
        RegisterClusterManagerBase env t =
          .panic e { t with registerClusterManagerBaseMetrics := true
                            registry := t.registry.addAll env added } ∧
        ∀ id, Registered env t.registry id →
          lookup env (t.registry.addAll env added) id = lookup env t.registry id) := by
  constructor
  · obtain ⟨g, hg, hcol⟩ := hs
    obtain ⟨e, u, he⟩ := mustRegisterAll_panic env (functionalGauges.map Collector.gauge) s
      (functional_single env)
      ⟨.gauge g, List.mem_map.2 ⟨g, hg, rfl⟩, _, by simp [Collector.descs], hcol⟩
    obtain ⟨k, c, _, hu, _, _⟩ := mustRegisterAll_panic_inv env _ s u e (functional_single env) he
    refine ⟨e, (functionalGauges.map Collector.gauge).take k, ?_,
      fun id hid => lookup_addAll_of_registered env _ _ id hid⟩
    rw [RegisterClusterManagerFunctional_eq_all, he, hu]
  · obtain ⟨e, u, he⟩ := mustRegisterAll_panic env (baseCollectors env) t (base_single env) ht
    obtain ⟨k, c, _, hu, _, _⟩ := mustRegisterAll_panic_inv env _ t u e (base_single env) he
    refine ⟨e, (baseCollectors env).take k, ?_,
      fun id hid => lookup_addAll_of_registered env _ _ id hid⟩
    rw [RegisterClusterManagerBase_eq_all, Once.Do_panic _ t u e hguard he, hu]

/-- C5: in a state in which the functional group is registered, `RecordSubnetUsage a b`
returns, and a read of `allocated_v4_host_subnets` and of `allocated_v6_host_subnets`
through the registry right after it yields `a` and `b`. -/
theorem RecordSubnetUsage_then_read (env : Env) (s : State) (a b : float64)
    (h : FunctionalRegistered env s) :
    ∃ t, RecordSubnetUsage a b s = .ok t ∧
      readMetric env t (GaugeVar.identity env .metricV4AllocatedHostSubnetCount) = some a ∧
      readMetric env t (GaugeVar.identity env .metricV6AllocatedHostSubnetCount) = some b := by
  refine ⟨_, rfl, ?_, ?_⟩
  · have h4 := h .metricV4AllocatedHostSubnetCount (by simp [functionalGauges])
    rw [readMetric_of_lookup_gauge env _ _ (by simpa only [Set_registry] using h4),
      Set_value_of_ne _ _ _ _ (by decide), Set_value_self]
  · have h6 := h .metricV6AllocatedHostSubnetCount (by simp [functionalGauges])
    rw [readMetric_of_lookup_gauge env _ _ (by simpa only [Set_registry] using h6),
      Set_value_self]

/-- C7: `RecordSubnetUsage` and `RecordSubnetCount` return normally in every state and
for all arguments, and leave the registry and the one-time guard as they were; when none
of the four functional identities is registered, every value read through the registry,
and the whole scrape, is the same after the call as before. -/
theorem recorders_leave_registration_alone (env : Env) (s : State) (a b : float64) :
    (∃ t, RecordSubnetUsage a b s = .ok t ∧ t.registry = s.registry ∧
        t.registerClusterManagerBaseMetrics = s.registerClusterManagerBaseMetrics ∧
        (FunctionalUnregistered env s →
          Gather env t = Gather env s ∧ ∀ id, readMetric env t id = readMetric env s id)) ∧
      (∃ t, RecordSubnetCount a b s = .ok t ∧ t.registry = s.registry ∧
        t.registerClusterManagerBaseMetrics = s.registerClusterManagerBaseMetrics ∧
        (FunctionalUnregistered env s →
          Gather env t = Gather env s ∧ ∀ id, readMetric env t id = readMetric env s id)) := by
  constructor
  · refine ⟨_, rfl, rfl, rfl, fun h => ?_⟩
    have hval : ∀ g, Collector.gauge g ∈ s.registry.collectorsByID →
        (GaugeVar.Set .metricV6AllocatedHostSubnetCount b
          (GaugeVar.Set .metricV4AllocatedHostSubnetCount a s)).value g = s.value g := by
      intro g hg
      have h4 : g ≠ .metricV4AllocatedHostSubnetCount := fun e =>
        not_mem_of_FunctionalUnregistered env s h _ (by simp [functionalGauges]) (e ▸ hg)
      have h6 : g ≠ .metricV6AllocatedHostSubnetCount := fun e =>
        not_mem_of_FunctionalUnregistered env s h _ (by simp [functionalGauges]) (e ▸ hg)
      rw [Set_value_of_ne _ _ _ _ h6, Set_value_of_ne _ _ _ _ h4]
    exact ⟨Gather_congr env s _ rfl hval, readMetric_congr env s _ rfl hval⟩
  · refine ⟨_, rfl, rfl, rfl, fun h => ?_⟩
    have hval : ∀ g, Collector.gauge g ∈ s.registry.collectorsByID →
        (GaugeVar.Set .metricV6HostSubnetCount b
          (GaugeVar.Set .metricV4HostSubnetCount a s)).value g = s.value g := by
      intro g hg
      have h4 : g ≠ .metricV4HostSubnetCount := fun e =>
        not_mem_of_FunctionalUnregistered env s h _ (by simp [functionalGauges]) (e ▸ hg)
      have h6 : g ≠ .metricV6HostSubnetCount := fun e =>
        not_mem_of_FunctionalUnregistered env s h _ (by simp [functionalGauges]) (e ▸ hg)
      rw [Set_value_of_ne _ _ _ _ h6, Set_value_of_ne _ _ _ _ h4]
    exact ⟨Gather_congr env s _ rfl hval, readMetric_congr env s _ rfl hval⟩

/-- C6, as stated, fails: in a fresh process the scenario register, record 100/50,
record 10/3, unregister, register ends with the four gauges reading 100, 50, 10 and 3
through the registry, and none of them reads 0. -/
theorem reregistration_keeps_recorded_values :
    ∃ t, reacquireScenario sampleEnv 100 50 10 3 State.init = .ok t ∧
      readMetric sampleEnv t (GaugeVar.identity sampleEnv .metricV4HostSubnetCount) = some 100 ∧
      readMetric sampleEnv t (GaugeVar.identity sampleEnv .metricV6HostSubnetCount) = some 50 ∧
      readMetric sampleEnv t
        (GaugeVar.identity sampleEnv .metricV4AllocatedHostSubnetCount) = some 10 ∧
      readMetric sampleEnv t
        (GaugeVar.identity sampleEnv .metricV6AllocatedHostSubnetCount) = some 3 ∧
      ∀ g ∈ functionalGauges, readMetric sampleEnv t (g.identity sampleEnv) ≠ some 0 := by
  have h0 : FunctionalRegistrable sampleEnv State.init := by decide
  have hreg := FunctionalRegistered_addAll sampleEnv
  have hun := FunctionalUnregistered_of_Registrable sampleEnv State.init h0
  refine ⟨_, reacquireScenario_eq sampleEnv 100 50 10 3 State.init h0, ?_, ?_, ?_, ?_, ?_⟩
  · rw [readMetric_of_lookup_gauge sampleEnv _ _
      (hreg _ State.init.registry hun rfl _ (by simp [functionalGauges]))]
    simp [GaugeVar.Set, Function.update]
  · rw [readMetric_of_lookup_gauge sampleEnv _ _
      (hreg _ State.init.registry hun rfl _ (by simp [functionalGauges]))]
    simp [GaugeVar.Set, Function.update]
  · rw [readMetric_of_lookup_gauge sampleEnv _ _
      (hreg _ State.init.registry hun rfl _ (by simp [functionalGauges]))]
    simp [GaugeVar.Set, Function.update]
  · rw [readMetric_of_lookup_gauge sampleEnv _ _
      (hreg _ State.init.registry hun rfl _ (by simp [functionalGauges]))]
    simp [GaugeVar.Set, Function.update]
  · intro g hg
    rw [readMetric_of_lookup_gauge sampleEnv _ _ (hreg _ State.init.registry hun rfl g hg)]
    simp only [functionalGauges, List.mem_cons, List.mem_singleton, List.not_mem_nil,
      or_false] at hg
    rcases hg with rfl | rfl | rfl | rfl <;> simp [GaugeVar.Set, Function.update]

/-- C6, amended: a successful `RegisterClusterManagerFunctional` does not touch the gauge
values.  From a state in which the registry can take the four gauges it returns, and each
of the four gauges then reads the value its variable already stored (0 in a process that
has not recorded yet); and after register, `RecordSubnetCount c4 c6`,
`RecordSubnetUsage a4 a6`, unregister, register, the four gauges read `c4`, `c6`, `a4`
and `a6`. -/
theorem registration_preserves_gauge_values (env : Env) (s : State) (c4 c6 a4 a6 : float64)
    (h : FunctionalRegistrable env s) :
    (∃ t, RegisterClusterManagerFunctional env s = .ok t ∧ t.value = s.value ∧
        ∀ g ∈ functionalGauges, readMetric env t (g.identity env) = some (s.value g)) ∧
      (∃ t, reacquireScenario env c4 c6 a4 a6 s = .ok t ∧
        readMetric env t (GaugeVar.identity env .metricV4HostSubnetCount) = some c4 ∧
        readMetric env t (GaugeVar.identity env .metricV6HostSubnetCount) = some c6 ∧
        readMetric env t (GaugeVar.identity env .metricV4AllocatedHostSubnetCount) = some a4 ∧
        readMetric env t (GaugeVar.identity env .metricV6AllocatedHostSubnetCount) = some a6) := by
  have hreg := FunctionalRegistered_addAll env
  have hun := FunctionalUnregistered_of_Registrable env s h
  constructor
  · exact ⟨_, RegisterClusterManagerFunctional_ok env s h, rfl,
      fun g hg => readMetric_of_lookup_gauge env _ g (hreg _ s.registry hun rfl g hg)⟩
  · refine ⟨_, reacquireScenario_eq env c4 c6 a4 a6 s h, ?_, ?_, ?_, ?_⟩
    · rw [readMetric_of_lookup_gauge env _ _
        (hreg _ s.registry hun rfl _ (by simp [functionalGauges]))]
      simp [GaugeVar.Set, Function.update]
    · rw [readMetric_of_lookup_gauge env _ _
        (hreg _ s.registry hun rfl _ (by simp [functionalGauges]))]
      simp [GaugeVar.Set, Function.update]
    · rw [readMetric_of_lookup_gauge env _ _
        (hreg _ s.registry hun rfl _ (by simp [functionalGauges]))]
      simp [GaugeVar.Set, Function.update]
    · rw [readMetric_of_lookup_gauge env _ _
        (hreg _ s.registry hun rfl _ (by simp [functionalGauges]))]
      simp [GaugeVar.Set, Function.update]

/-- C8, as stated, fails: for a binary whose Build Identity has version `1.0.0`, the
`build_info` collector registered by `RegisterClusterManagerBase` carries the label
`version` with value `0.0`, so its label set is not the Build Identity. -/
theorem build_info_version_is_not_build_version :
    lookup (sampleBuild.env "ovnkube" "clustermanager")
        (RegisterClusterManagerBase (sampleBuild.env "ovnkube" "clustermanager")
          State.init).state.registry
        (buildInfoOpts (sampleBuild.env "ovnkube" "clustermanager")).identity =
      some (buildInfo (sampleBuild.env "ovnkube" "clustermanager")) ∧
    (buildInfoOpts (sampleBuild.env "ovnkube" "clustermanager")).ConstLabels ≠
      sampleBuild.labels ∧
    ((buildInfoOpts (sampleBuild.env "ovnkube" "clustermanager")).ConstLabels.lookup
        "version" = some "0.0" ∧
      sampleBuild.labels.lookup "version" = some "1.0.0") := by
  refine ⟨?_, by decide, by decide, by decide⟩
  have hb : BaseRegistrable (sampleBuild.env "ovnkube" "clustermanager") State.init := by
    decide
  rw [RegisterClusterManagerBase_ok _ State.init rfl hb]
  exact lookup_baseCollectors_buildInfo _ _ (buildInfo_not_registered _ _ hb)

/-- C8, amended: the `build_info` collector registered by `RegisterClusterManagerBase`
reads 1 in every state, and its constant labels are exactly version, revision, branch,
build_user, build_date and goversion, where `version` holds the fixed string `0.0` and the
other five hold the revision, branch, builder identity, build date and toolchain version
of the Build Identity. -/
theorem build_info_labels (b : BuildIdentity) (ns sub : String) (s : State)
    (hguard : s.registerClusterManagerBaseMetrics = false)
    (hbase : BaseRegistrable (b.env ns sub) s) :
    ∃ t, RegisterClusterManagerBase (b.env ns sub) s = .ok t ∧
      lookup (b.env ns sub) t.registry (buildInfoOpts (b.env ns sub)).identity =
        some (buildInfo (b.env ns sub)) ∧
      (∀ u : State, (buildInfo (b.env ns sub)).collect (b.env ns sub) u =
        [((buildInfoOpts (b.env ns sub)).desc, 1)]) ∧
      (∀ u : State,
        lookup (b.env ns sub) u.registry (buildInfoOpts (b.env ns sub)).identity =
          some (buildInfo (b.env ns sub)) →
        readMetric (b.env ns sub) u (buildInfoOpts (b.env ns sub)).identity = some 1) ∧
      (buildInfoOpts (b.env ns sub)).ConstLabels =
        [ ("version", "0.0"), ("revision", b.revision), ("branch", b.branch),
          ("build_user", b.buildUser), ("build_date", b.buildDate),
          ("goversion", b.toolchainVersion) ] := by
  refine ⟨_, RegisterClusterManagerBase_ok _ s hguard hbase, ?_, fun _ => rfl, ?_, rfl⟩
  · exact lookup_baseCollectors_buildInfo _ _ (buildInfo_not_registered _ _ hbase)
  · intro u hu
    unfold readMetric
    rw [hu]
    simp [buildInfo, Collector.collect, List.find?, GaugeOpts.identity]

/-- C10: if the guard has not run and the first call of `RegisterClusterManagerBase`
panics, the panic is the error of one of its three registrations, number `k` counted from
0.  The state at the panic has the guard consumed and exactly the base collectors before
the `k`-th filed behind the collectors held before: those are registered, and no
descriptor ID of a base collector after the `k`-th has become registered.  Every call in
a state with the guard consumed returns normally and leaves the state as it is, so any
number of later calls adds nothing. -/
theorem guard_consumed_by_failed_first_call (env : Env) (s t : State) (e : Error)
    (hguard : s.registerClusterManagerBaseMetrics = false)
    (hpanic : RegisterClusterManagerBase env s = .panic e t) :
    ∃ k c, (baseCollectors env)[k]? = some c ∧
      Register env t.registry c = .error e ∧
      t = { s with registerClusterManagerBaseMetrics := true
                   registry := s.registry.addAll env ((baseCollectors env).take k) } ∧
      (∀ d ∈ (baseCollectors env).take k, ∀ id ∈ d.ids env,
        lookup env t.registry id = some d) ∧
      (∀ d ∈ (baseCollectors env).drop (k + 1), ∀ id ∈ d.ids env,
        (Registered env t.registry id ↔ Registered env s.registry id)) ∧
      (∀ u : State, u.registerClusterManagerBaseMetrics = true →
        RegisterClusterManagerBase env u = .ok u) ∧
      ∀ n, callN (RegisterClusterManagerBase env) n t = .ok t := by
  rw [RegisterClusterManagerBase_eq_all] at hpanic
  cases hb : mustRegisterAll env (baseCollectors env) s with
  | ok u =>
    rw [Once.Do_ok _ s u hguard hb] at hpanic
    cases hpanic
  | panic e0 u =>
    rw [Once.Do_panic _ s u e0 hguard hb] at hpanic
    obtain ⟨rfl, rfl⟩ := Result.panic.inj hpanic
    obtain ⟨k, c, hk, hu, herr, hnot⟩ :=
      mustRegisterAll_panic_inv env _ s u e0 (base_single env) hb
    subst hu
    have hpair := base_pairwise env
    refine ⟨k, c, hk, herr, rfl, ?_, ?_, RegisterClusterManagerBase_done env,
      fun n => callN_ok_fixed _ _ (RegisterClusterManagerBase_done env _ rfl) n⟩
    · intro d hd id hid
      show lookup env (s.registry.addAll env ((baseCollectors env).take k)) id = some d
      rw [lookup_addAll_of_not_registered env _ _ _ (hnot d hd id hid)]
      exact find_of_pairwise env _ (hpair.sublist (List.take_sublist k _)) d hd id hid
    · intro d hd id hid
      show Registered env (s.registry.addAll env ((baseCollectors env).take k)) id ↔ _
      rw [Registered_addAll]
      constructor
      · rintro (h | ⟨c1, hc1, hid1⟩)
        · exact h
        · exfalso
          have hsplit := hpair
          rw [← List.take_append_drop k (baseCollectors env), List.pairwise_append] at hsplit
          have hd' : d ∈ (baseCollectors env).drop k := by
            have hsub : (baseCollectors env).drop (k + 1) =
                ((baseCollectors env).drop k).drop 1 := by
              simp [List.drop_drop, Nat.add_comm]
            rw [hsub] at hd
            exact List.mem_of_mem_drop hd
          exact not_mem_ids_of_DistinctNames env c1 d (hsplit.2.2 c1 hc1 d hd') id hid hid1
      · exact Or.inl

/-! ### The claims at concrete states -/

/-- Three calls in a fresh process end where one call ends. -/
theorem RegisterClusterManagerBase_idempotent_witness :
    State.init.registerClusterManagerBaseMetrics = false ∧
      BaseRegistrable sampleEnv State.init ∧
      callN (RegisterClusterManagerBase sampleEnv) 3 State.init =
        RegisterClusterManagerBase sampleEnv State.init :=
  ⟨rfl, by decide,
    (RegisterClusterManagerBase_idempotent sampleEnv State.init rfl (by decide) 3
      (by decide)).2.1⟩

/-- Three leadership terms in a fresh process, and a registration after two of them. -/
theorem functional_register_unregister_cycles_witness :
    FunctionalRegistrable sampleEnv State.init ∧
      callN (leadershipTerm sampleEnv) 3 State.init =
        .ok (State.init.betweenTerms sampleEnv) ∧
      (callN (leadershipTerm sampleEnv) 2 State.init).andThen
          (RegisterClusterManagerFunctional sampleEnv) =
        .ok (State.init.leading sampleEnv) :=
  ⟨by decide,
    (functional_register_unregister_cycles sampleEnv State.init (by decide) 2).2.2.2.2.2.2⟩

/-- Both registrations panic in a state where another subsystem holds the descriptor ID
of one gauge of the group. -/
theorem register_collision_is_fatal_witness :
    (∃ g ∈ functionalGauges,
        Collides sampleEnv
          (withForeign sampleEnv
            (foreignGauge sampleEnv "num_v6_host_subnets" "held by another subsystem"
              [])).registry
          (g.opts sampleEnv).desc) ∧
      (∃ c ∈ baseCollectors sampleEnv, ∃ d ∈ c.descs sampleEnv,
        Collides sampleEnv
          (withForeign sampleEnv
            (foreignGauge sampleEnv "ready_duration_seconds" "held by another subsystem"
              [])).registry d) ∧
      ∃ e added,
        RegisterClusterManagerFunctional sampleEnv
            (withForeign sampleEnv
              (foreignGauge sampleEnv "num_v6_host_subnets" "held by another subsystem" [])) =
          .panic e
            { withForeign sampleEnv
                (foreignGauge sampleEnv "num_v6_host_subnets" "held by another subsystem"
                  []) with
              registry :=
                (withForeign sampleEnv
                  (foreignGauge sampleEnv "num_v6_host_subnets" "held by another subsystem"
                    [])).registry.addAll sampleEnv added } :=
  ⟨⟨.metricV6HostSubnetCount, by decide, Or.inl (by decide)⟩,
    ⟨.gauge .MetricClusterManagerReadyDuration, by simp [baseCollectors], _,
      List.mem_singleton.2 rfl, Or.inl (by decide)⟩,
    (register_collision_is_fatal sampleEnv
      (withForeign sampleEnv
        (foreignGauge sampleEnv "num_v6_host_subnets" "held by another subsystem" []))
      (withForeign sampleEnv
        (foreignGauge sampleEnv "ready_duration_seconds" "held by another subsystem" []))
      ⟨.metricV6HostSubnetCount, by decide, Or.inl (by decide)⟩ (by decide)
      ⟨.gauge .MetricClusterManagerReadyDuration, by simp [baseCollectors], _,
        List.mem_singleton.2 rfl, Or.inl (by decide)⟩).1.imp
      fun _ h => h.imp fun _ h1 => h1.1⟩

/-- Usage 10 and 3 recorded while the group is registered reads back as 10 and 3. -/
theorem RecordSubnetUsage_then_read_witness :
    FunctionalRegistered sampleEnv (leaderState sampleEnv) ∧
      ∃ t, RecordSubnetUsage 10 3 (leaderState sampleEnv) = .ok t ∧
        readMetric sampleEnv t
          (GaugeVar.identity sampleEnv .metricV4AllocatedHostSubnetCount) = some 10 ∧
        readMetric sampleEnv t
          (GaugeVar.identity sampleEnv .metricV6AllocatedHostSubnetCount) = some 3 :=
  ⟨FunctionalRegistered_addAll sampleEnv _ State.init.registry (by decide) rfl,
    RecordSubnetUsage_then_read sampleEnv (leaderState sampleEnv) 10 3
      (FunctionalRegistered_addAll sampleEnv _ State.init.registry (by decide) rfl)⟩

/-- The scenario with 100/50 and 10/3 in a fresh process. -/
theorem registration_preserves_gauge_values_witness :
    FunctionalRegistrable sampleEnv State.init ∧
      ∃ t, reacquireScenario sampleEnv 100 50 10 3 State.init = .ok t ∧
        readMetric sampleEnv t (GaugeVar.identity sampleEnv .metricV4HostSubnetCount) =
          some 100 ∧
        readMetric sampleEnv t (GaugeVar.identity sampleEnv .metricV6HostSubnetCount) =
          some 50 ∧
        readMetric sampleEnv t
          (GaugeVar.identity sampleEnv .metricV4AllocatedHostSubnetCount) = some 10 ∧
        readMetric sampleEnv t
          (GaugeVar.identity sampleEnv .metricV6AllocatedHostSubnetCount) = some 3 :=
  ⟨by decide,
    (registration_preserves_gauge_values sampleEnv State.init 100 50 10 3 (by decide)).2⟩

/-- Labels of `build_info` for the sample build. -/
theorem build_info_labels_witness :
    State.init.registerClusterManagerBaseMetrics = false ∧
      BaseRegistrable (sampleBuild.env "ovnkube" "clustermanager") State.init ∧
      (buildInfoOpts (sampleBuild.env "ovnkube" "clustermanager")).ConstLabels =
        [ ("version", "0.0"), ("revision", "abc123"), ("branch", "master"),
          ("build_user", "builder"), ("build_date", "2023-01-01"), ("goversion", "go1.20") ] :=
  ⟨rfl, by decide,
    (build_info_labels sampleBuild "ovnkube" "clustermanager" State.init rfl
      (by decide)).elim fun _ h => h.2.2.2.2⟩

/-- The first base registration panics when another subsystem holds
`ready_duration_seconds`: the guard is consumed and later calls change nothing. -/
theorem guard_consumed_by_failed_first_call_witness :
    (withForeign sampleEnv
        (foreignGauge sampleEnv "ready_duration_seconds" "held by another subsystem" [])
      ).registerClusterManagerBaseMetrics = false ∧
      (RegisterClusterManagerBase sampleEnv
        (withForeign sampleEnv
          (foreignGauge sampleEnv "ready_duration_seconds" "held by another subsystem" []))
        ).returned = false ∧
      ∀ n, callN (RegisterClusterManagerBase sampleEnv) n
          (RegisterClusterManagerBase sampleEnv
            (withForeign sampleEnv
              (foreignGauge sampleEnv "ready_duration_seconds" "held by another subsystem"
                []))).state =
        .ok (RegisterClusterManagerBase sampleEnv
          (withForeign sampleEnv
            (foreignGauge sampleEnv "ready_duration_seconds" "held by another subsystem"
              []))).state :=
  ⟨by decide, by decide,
    (Result.eq_panic_of_not_returned _ (by decide)).elim fun e he =>
      (guard_consumed_by_failed_first_call sampleEnv
        (withForeign sampleEnv
          (foreignGauge sampleEnv "ready_duration_seconds" "held by another subsystem" []))
        _ e (by decide) he).elim fun _ h => h.elim fun _ h1 => h1.2.2.2.2.2.2⟩

end Metrics
